import Mathlib

/-!
Verification of the DDN drone-network protocol implementation
(`core/drone_state.py`, `controllers/enhanced_state_controller.py`,
`networking/drone_packet.py`) against its natural-language specification.

Modelling conventions:
* Python floats (times, battery, positions, signal) are modelled as `ℤ`
  (integral-valued floats; the verified code paths only compare, add and
  subtract these quantities, so the embedding is exact on them).  The one
  genuine ratio, the reliability score, is modelled in `ℚ`.
* Python dicts are modelled as association lists with Python-dict update
  semantics (replace-in-place on existing key, append on new key).
* Python object aliasing matters: `DroneNetwork.self_drone` and the entry
  of `known_drones` keyed by the self id are the *same object*.  The model
  keeps the self record in a dedicated field, and map entries store a
  `Slot`: either a marker that the entry aliases the self record, or an
  unaliased peer record.
* Randomness (`random.randint`, `random.uniform`) is modelled by passing
  the drawn values explicitly (a stream `ℕ → ℕ` for id draws, a stream of
  positions for fresh records); `time.time()` is passed as a `now`
  parameter.
* Diagnostic `print` calls have no state effect and are dropped.
-/

namespace DDN

/-! ## JSON documents (`drone_packet.py`: `to_json` / `decode_json`)

The wire unit is a JSON document produced by `json.dumps` and consumed by
`json.loads`.  The embedding works at the level of JSON values: `to_json`
builds the six-key document, `decode_json` extracts the six fields with the
source's `.get` defaults (`None` for the scalar fields, the empty object
for `params`). -/

inductive Json where
  | null : Json
  | bool (b : Bool) : Json
  | num (q : ℚ) : Json
  | str (s : String) : Json
  | array (xs : List Json) : Json
  | obj (kvs : List (String × Json)) : Json

/-- The attribute set of a `DronePacket` as held in memory: six Python
values (arbitrary JSON-representable data). -/
structure WireMsg where
  timestamp : Json
  drone_id : Json
  destination_id : Json
  current_state : Json
  request_action : Json
  params : Json

/-- `dict.get(key, default)` on a JSON object. -/
def jsonGet (j : Json) (key : String) (dflt : Json) : Json :=
  match j with
  | .obj kvs => ((kvs.find? (fun kv => kv.1 == key)).map (fun kv => kv.2)).getD dflt
  | _ => dflt

/-- `DronePacket.to_json`: serialize the packet as a six-key JSON object. -/
def to_json (m : WireMsg) : Json :=
  .obj [("timestamp", m.timestamp), ("drone_id", m.drone_id),
        ("destination_id", m.destination_id), ("current_state", m.current_state),
        ("action", m.request_action), ("params", m.params)]

/-- `DronePacket.decode_json`: parse a JSON document into packet fields,
with the source's `.get` defaults.  A document that is not an object fails
(`json.loads` result without `.get`). -/
def decode_json (j : Json) : Option WireMsg :=
  match j with
  | .obj _ => some
      { timestamp := jsonGet j "timestamp" .null
        drone_id := jsonGet j "drone_id" .null
        destination_id := jsonGet j "destination_id" .null
        current_state := jsonGet j "current_state" .null
        request_action := jsonGet j "action" .null
        params := jsonGet j "params" (.obj []) }
  | _ => none

/-! ## Node records (`drone_state.py`: `DroneStatus`, `DroneState`) -/

inductive DroneStatus where
  | offline | seeking | connected | master | slave | lost
deriving DecidableEq

/-- `DroneState`: the per-drone record. -/
structure DroneState where
  drone_id : ℕ
  status : DroneStatus
  last_seen : ℤ
  discovery_time : ℤ
  position : ℤ × ℤ × ℤ
  battery_level : ℤ
  is_self : Bool
  ping_count : ℕ
  response_count : ℕ
  signal_strength : ℤ
  capabilities : List String
deriving DecidableEq

/-- `DroneState.__init__`: fresh record for id `i` created at time `now`
with randomly drawn initial position `fresh`. -/
def newDrone (i : ℕ) (now : ℤ) (fresh : ℤ × ℤ × ℤ) : DroneState :=
  { drone_id := i, status := .seeking, last_seen := now, discovery_time := now,
    position := fresh, battery_level := 100, is_self := false,
    ping_count := 0, response_count := 0, signal_strength := 0,
    capabilities := [] }

/-- `DroneState.update_last_seen`. -/
def update_last_seen (now : ℤ) (d : DroneState) : DroneState :=
  { d with last_seen := now }

/-- `DroneState.is_online(timeout)`: `now - last_seen < timeout`. -/
def is_online (now timeout : ℤ) (d : DroneState) : Bool :=
  now - d.last_seen < timeout

/-- `DroneState.update_position`: the `(0,0,0)` sentinel is rejected
(no-op), otherwise position is overwritten and `last_seen` refreshed. -/
def update_position (now : ℤ) (p : ℤ × ℤ × ℤ) (d : DroneState) : DroneState :=
  if p = (0, 0, 0) then d
  else { d with position := p, last_seen := now }

/-- `DroneState.update_battery`: clamp to `[0,100]`, refresh `last_seen`. -/
def update_battery (now : ℤ) (v : ℤ) (d : DroneState) : DroneState :=
  { d with battery_level := max 0 (min 100 v), last_seen := now }

/-! ## The network view (`drone_state.py`: `DroneNetwork`)

`known_drones` maps ids to slots; the slot `Slot.self` marks the entry that
aliases the dedicated self record. -/

inductive Slot where
  | self : Slot
  | peer (d : DroneState) : Slot
deriving DecidableEq

def Slot.isSelfSlot : Slot → Bool
  | .self => true
  | .peer _ => false

structure DroneNetwork where
  self_drone : DroneState
  known_drones : List (ℕ × Slot)
  master_drone_id : Option ℕ
  network_established : Bool
  id_conflicts : List (ℕ × ℕ)
deriving DecidableEq

namespace DroneNetwork

/-- `DroneNetwork.get_self_id`. -/
def get_self_id (n : DroneNetwork) : ℕ := n.self_drone.drone_id

/-- Resolve a slot to the record it denotes (dereference the alias). -/
def resolveSlot (n : DroneNetwork) : Slot → DroneState
  | .self => n.self_drone
  | .peer d => d

/-- `id in self.known_drones` (key membership). -/
def hasKey (i : ℕ) (n : DroneNetwork) : Bool :=
  n.known_drones.any (fun e => e.1 == i)

/-- `self.known_drones.get(id)` as a slot. -/
def getSlot (i : ℕ) (n : DroneNetwork) : Option Slot :=
  (n.known_drones.find? (fun e => e.1 == i)).map (fun e => e.2)

/-- `self.known_drones[id] = slot`: Python-dict assignment (replace the
existing entry in place, else append). -/
def dictSet (i : ℕ) (s : Slot) (l : List (ℕ × Slot)) : List (ℕ × Slot) :=
  if l.any (fun e => e.1 == i) then
    l.map (fun e => if e.1 == i then (i, s) else e)
  else l ++ [(i, s)]

/-- `del self.known_drones[id]`. -/
def dictDel (i : ℕ) (l : List (ℕ × Slot)) : List (ℕ × Slot) :=
  l.filter (fun e => !(e.1 == i))

/-- Mutate the record object stored at key `i` with `f` (a Python attribute
update through the dict): if the entry aliases the self record, the
mutation lands on the self record. -/
def updateVal (i : ℕ) (f : DroneState → DroneState) (n : DroneNetwork) : DroneNetwork :=
  { n with
    self_drone := if n.getSlot i = some .self then f n.self_drone else n.self_drone,
    known_drones := n.known_drones.map (fun e =>
      if e.1 == i then
        (e.1, match e.2 with | .self => .self | .peer d => .peer (f d))
      else e) }

/-- `dict.values()` resolved to records, in insertion order. -/
def allDrones (n : DroneNetwork) : List DroneState :=
  n.known_drones.map (fun e => n.resolveSlot e.2)

/-- `DroneNetwork.get_online_drones(timeout)`. -/
def get_online_drones (now timeout : ℤ) (n : DroneNetwork) : List DroneState :=
  (n.allDrones).filter (is_online now timeout)

/-- `DroneNetwork.get_online_drone_count(timeout)`. -/
def get_online_drone_count (now timeout : ℤ) (n : DroneNetwork) : ℕ :=
  (n.get_online_drones now timeout).length

/-- `DroneNetwork.get_drone(id)` (resolved record, read-only view). -/
def get_drone (i : ℕ) (n : DroneNetwork) : Option DroneState :=
  (n.getSlot i).map n.resolveSlot

/-- `DroneNetwork.set_self_status`. -/
def set_self_status (now : ℤ) (st : DroneStatus) (n : DroneNetwork) : DroneNetwork :=
  { n with self_drone := { n.self_drone with status := st, last_seen := now } }

/-- The field-update pipeline `add_or_update_drone` applies to a record:
status overwrite, then optional position / battery / signal, then
`update_last_seen`. -/
def applyUpd (now : ℤ) (st : DroneStatus) (pos : Option (ℤ × ℤ × ℤ))
    (bat : Option ℤ) (sig : Option ℤ) (d : DroneState) : DroneState :=
  let d := { d with status := st }
  let d := match pos with | some p => update_position now p d | none => d
  let d := match bat with | some b => update_battery now b d | none => d
  let d := match sig with | some s => { d with signal_strength := s } | none => d
  update_last_seen now d

/-- `DroneNetwork.add_or_update_drone`.  Calling it with the self id only
prints a diagnostic in the source — the update still proceeds through the
normal path (there is no early return). -/
def add_or_update_drone (now : ℤ) (fresh : ℤ × ℤ × ℤ) (i : ℕ) (st : DroneStatus)
    (pos : Option (ℤ × ℤ × ℤ)) (bat : Option ℤ) (sig : Option ℤ)
    (n : DroneNetwork) : DroneNetwork :=
  if n.hasKey i then
    n.updateVal i (applyUpd now st pos bat sig)
  else
    { n with known_drones :=
        n.known_drones ++ [(i, .peer (applyUpd now st pos bat sig (newDrone i now fresh)))] }

/-- `DroneNetwork.remove_drone`. -/
def remove_drone (i : ℕ) (n : DroneNetwork) : DroneNetwork :=
  if n.hasKey i ∧ i ≠ n.get_self_id then
    { n with known_drones := dictDel i n.known_drones }
  else n

/-- `DroneNetwork.cleanup_offline_drones(timeout)`: evict every non-self
key whose record's `last_seen` age strictly exceeds `timeout`. -/
def cleanup_offline_drones (now timeout : ℤ) (n : DroneNetwork) : DroneNetwork :=
  { n with known_drones := n.known_drones.filter (fun e =>
      !(!(e.1 == n.get_self_id) && (timeout < now - (n.resolveSlot e.2).last_seen))) }

/-- `DroneNetwork.detect_id_conflict(reported_id, reporter_id)`. -/
def detect_id_conflict (reported reporter : ℕ) (n : DroneNetwork) : Bool :=
  reported == n.get_self_id && !(reporter == n.get_self_id)

/-- First fresh id among the (up to) 100 random draws, in draw order. -/
def findFresh (draws : ℕ → ℕ) (n : DroneNetwork) : Option ℕ :=
  (List.range 100).findSome? (fun a =>
    if n.hasKey (draws a) then none else some (draws a))

/-- Re-key the self record under `newId` and log the resolution (the shared
tail of both paths of `resolve_id_conflict`). -/
def rekeySelf (oldId newId : ℕ) (n : DroneNetwork) : DroneNetwork :=
  { n with
    self_drone := { n.self_drone with drone_id := newId },
    known_drones := dictSet newId .self (dictDel oldId n.known_drones),
    id_conflicts := n.id_conflicts ++ [(oldId, newId)] }

/-- `DroneNetwork.resolve_id_conflict`: `draws` is the stream of values
produced by `random.randint(1, 65535)`, `ts` is `int(time.time()*1000)`.
Returns the new id and the updated network. -/
def resolve_id_conflict (draws : ℕ → ℕ) (ts : ℕ) (n : DroneNetwork) :
    ℕ × DroneNetwork :=
  let oldId := n.get_self_id
  match findFresh draws n with
  | some newId => (newId, rekeySelf oldId newId n)
  | none =>
      let newId := ts % 65535 + 1
      (newId, rekeySelf oldId newId n)

/-- The winning record of `min(online_drones, key=lambda d: d.drone_id)`:
first record with the minimal `drone_id`. -/
def minById (h : DroneState) (t : List DroneState) : DroneState :=
  t.foldl (fun acc d => if d.drone_id < acc.drone_id then d else acc) h

/-- Set every online record's status to MASTER/SLAVE according to `mid`
(the loop bodies of `elect_master` and `finalize_election`); the mutation
reaches the self record through the alias when the self entry is online. -/
def setOnlineStatuses (now : ℤ) (mid : ℕ) (n : DroneNetwork) : DroneNetwork :=
  { n with
    self_drone :=
      if n.known_drones.any (fun e => e.2.isSelfSlot) && is_online now 30 n.self_drone then
        { n.self_drone with status :=
            if n.self_drone.drone_id = mid then .master else .slave }
      else n.self_drone,
    known_drones := n.known_drones.map (fun e =>
      match e.2 with
      | .self => e
      | .peer d =>
          if is_online now 30 d then
            (e.1, .peer { d with status := if d.drone_id = mid then .master else .slave })
          else e) }

/-- `DroneNetwork.elect_master`: lowest-id online record becomes master;
online statuses updated. -/
def elect_master (now : ℤ) (n : DroneNetwork) : Option ℕ × DroneNetwork :=
  match n.get_online_drones now 30 with
  | [] => (none, n)
  | h :: t =>
      let mid := (minById h t).drone_id
      (some mid, setOnlineStatuses now mid { n with master_drone_id := some mid })

/-- The guard of `update_network_status`'s master-clearing branch
(`if self.master_drone_id and (absent or not online)`): a truthy recorded
master that is absent from the map or whose record is not online.  The
guard only reads fields the established-flag assignment does not touch, so
it is computed from the incoming state. -/
def masterMissing (now : ℤ) (n : DroneNetwork) : Bool :=
  match n.master_drone_id with
  | some m => (!(m == 0)) && (match n.getSlot m with
      | none => true
      | some s => !(is_online now 30 (n.resolveSlot s)))
  | none => false

/-- `DroneNetwork.update_network_status`: recompute `network_established`;
if the recorded master (truthy) is absent or not online, clear it and — if
the network is established — immediately run `elect_master`. -/
def update_network_status (now : ℤ) (n : DroneNetwork) : DroneNetwork :=
  let established := decide (n.get_online_drone_count now 30 > 1)
  if masterMissing now n then
    (if established then
      (elect_master now { n with network_established := established,
                                 master_drone_id := none }).2
     else { n with network_established := established, master_drone_id := none })
  else { n with network_established := established }

end DroneNetwork

/-- `DroneState.get_reliability_score`. -/
def get_reliability_score (d : DroneState) : ℚ :=
  if d.ping_count = 0 then 1 else (d.response_count : ℚ) / (d.ping_count : ℚ)

/-! ## Typed messages (the dispatch layer's view of a decoded packet)

The handlers read a fixed set of `params` keys; `MsgParams` is the typed
view of that dict, one `Option` per key the controller touches. -/

structure MsgParams where
  position : Option (ℤ × ℤ × ℤ)
  battery_level : Option ℤ
  signal_strength : Option ℤ
  status : Option String
  capabilities : Option (List String)
  known_drones : Option (List ℕ)
  master_id : Option ℕ
  old_id : Option ℕ
  new_id : Option ℕ
  candidate_id : Option ℕ
  criteria : Option (List (String × ℚ))
  ping_response : Option Bool
deriving DecidableEq

def MsgParams.empty : MsgParams :=
  { position := none, battery_level := none, signal_strength := none,
    status := none, capabilities := none, known_drones := none,
    master_id := none, old_id := none, new_id := none,
    candidate_id := none, criteria := none, ping_response := none }

structure Msg where
  timestamp : ℤ
  drone_id : ℕ
  destination_id : ℤ
  current_state : DroneStatus
  action : String
  params : MsgParams
deriving DecidableEq

/-- `DronePacket.command` followed by a broadcast: the emitted message. -/
def mkMsg (now : ℤ) (sender : ℕ) (dest : ℤ) (st : DroneStatus)
    (action : String) (ps : MsgParams) : Msg :=
  { timestamp := now, drone_id := sender, destination_id := dest,
    current_state := st, action := action, params := ps }

/-! ## The controller (`enhanced_state_controller.py`: `EnhancedStateController`)

Configuration intervals are carried as state fields; handlers return the
new controller state together with the list of messages broadcast. -/

structure Controller where
  net : DroneNetwork
  master_election_interval : ℤ
  master_timeout : ℤ
  election_in_progress : Bool
  election_start_time : ℤ
  election_timeout : ℤ
  election_votes : List (ℕ × ℕ)
  has_voted : Bool
  last_master_heartbeat_time : ℤ
  last_master_check_time : ℤ
deriving DecidableEq

namespace Controller

/-- `self.election_votes[voter] = cand` (Python-dict assignment). -/
def voteSet (voter cand : ℕ) (l : List (ℕ × ℕ)) : List (ℕ × ℕ) :=
  if l.any (fun e => e.1 == voter) then
    l.map (fun e => if e.1 == voter then (voter, cand) else e)
  else l ++ [(voter, cand)]

/-- The candidate score `(battery_level, -drone_id, uptime)`. -/
def score (now : ℤ) (d : DroneState) : ℤ × ℤ × ℤ :=
  (d.battery_level, -(d.drone_id : ℤ), now - d.discovery_time)

/-- Strict lexicographic `>` on Python float triples. -/
def scoreGt (a b : ℤ × ℤ × ℤ) : Bool :=
  b.1 < a.1 || (a.1 == b.1 && (b.2.1 < a.2.1 || (a.2.1 == b.2.1 && b.2.2 < a.2.2)))

/-- `EnhancedStateController.select_master_candidate`.  The running best is
`none` while still at the `(-1, inf, -1)` sentinel; a score beats the
sentinel exactly when its battery component exceeds `-1`. -/
def select_master_candidate (now : ℤ) (c : Controller) : ℕ :=
  let selfId := c.net.get_self_id
  let online := c.net.get_online_drones now 30
  if online.isEmpty then selfId
  else
    let best : Option (ℕ × (ℤ × ℤ × ℤ)) := online.foldl (fun acc d =>
      match acc with
      | none => if (-1 : ℤ) < (score now d).1 then some (d.drone_id, score now d) else none
      | some (bid, bs) =>
          if scoreGt (score now d) bs then some (d.drone_id, score now d) else some (bid, bs)) none
    let selfScore := score now c.net.self_drone
    let best := match best with
      | none => if (-1 : ℤ) < selfScore.1 then some (selfId, selfScore) else none
      | some (bid, bs) => if scoreGt selfScore bs then some (selfId, selfScore) else some (bid, bs)
    match best with
    | some (bid, _) => if bid ≠ 0 then bid else selfId
    | none => selfId

/-- `EnhancedStateController.calculate_election_criteria` (the params dict
of the vote message). -/
def calculate_election_criteria (now : ℤ) (c : Controller) (cand : ℕ) :
    List (String × ℚ) :=
  let dOpt := if cand = c.net.get_self_id then some c.net.self_drone else c.net.get_drone cand
  match dOpt with
  | none => [("battery_level", 0), ("uptime", 0), ("reliability", 0)]
  | some d =>
      [("battery_level", (d.battery_level : ℚ)), ("uptime", ((now - d.discovery_time : ℤ) : ℚ)),
       ("reliability", get_reliability_score d), ("drone_id", (cand : ℚ))]

/-- `EnhancedStateController.participate_in_election`. -/
def participate_in_election (now : ℤ) (c : Controller) : Controller × List Msg :=
  if c.has_voted then (c, [])
  else
    let cand := select_master_candidate now c
    let crit := calculate_election_criteria now c cand
    let out := mkMsg now c.net.get_self_id (-1) c.net.self_drone.status "ELECT_MASTER"
      { MsgParams.empty with candidate_id := some cand, criteria := some crit }
    ({ c with has_voted := true,
              election_votes := voteSet c.net.get_self_id cand c.election_votes }, [out])

/-- `EnhancedStateController.initiate_master_election`. -/
def initiate_master_election (now : ℤ) (c : Controller) : Controller × List Msg :=
  if c.election_in_progress then (c, [])
  else
    participate_in_election now
      { c with election_in_progress := true, election_start_time := now,
               election_votes := [], has_voted := false }

/-- `EnhancedStateController.handle_ping`: reply with an ACK. -/
def handle_ping (now : ℤ) (c : Controller) (p : Msg) : List Msg :=
  [mkMsg now c.net.get_self_id (p.drone_id : ℤ) c.net.self_drone.status "ACK"
    { MsgParams.empty with position := some c.net.self_drone.position,
                           battery_level := some c.net.self_drone.battery_level,
                           ping_response := some true }]

/-- `EnhancedStateController.handle_discovery_announce`. -/
def handle_discovery_announce (now : ℤ) (c : Controller) (p : Msg) : List Msg :=
  [mkMsg now c.net.get_self_id (p.drone_id : ℤ) c.net.self_drone.status "DISCOVERY_RESPONSE"
    { MsgParams.empty with position := some c.net.self_drone.position,
                           battery_level := some c.net.self_drone.battery_level,
                           capabilities := some c.net.self_drone.capabilities }]

/-- `EnhancedStateController.handle_discovery_response`. -/
def handle_discovery_response (c : Controller) (p : Msg) : Controller :=
  match p.params.capabilities with
  | some caps =>
      { c with net := c.net.updateVal p.drone_id (fun d => { d with capabilities := caps }) }
  | none => c

/-- `EnhancedStateController.handle_ack`. -/
def handle_ack (c : Controller) (p : Msg) : Controller :=
  { c with net :=
      (c.net.updateVal p.drone_id (fun d => { d with response_count := d.response_count + 1 })) }

/-- `EnhancedStateController.handle_heartbeat`: refresh the master
heartbeat timestamp when the sender is the recorded master, refresh the
sender's `last_seen`, and on a conflicting master claim — only when no
election is in progress — clear the recorded master and start one. -/
def handle_heartbeat (now : ℤ) (c : Controller) (p : Msg) : Controller × List Msg :=
  let c := if c.net.master_drone_id = some p.drone_id
           then { c with last_master_heartbeat_time := now } else c
  let c := { c with net := c.net.updateVal p.drone_id (update_last_seen now) }
  let senderStatus := p.params.status.getD "unknown"
  if senderStatus == "master" &&
     (match c.net.master_drone_id with
      | some m => !(m == 0) && !(m == p.drone_id)
      | none => false) then
    if !c.election_in_progress then
      initiate_master_election now { c with net := { c.net with master_drone_id := none } }
    else (c, [])
  else (c, [])

/-- One iteration of `handle_network_status`'s merge loop over the
gossiped id list (the counter tracks how many fresh records were created,
indexing the random-position stream). -/
def gossipStep (now : ℤ) (rnd : ℕ → ℤ × ℤ × ℤ) (acc : DroneNetwork × ℕ) (i : ℕ) :
    DroneNetwork × ℕ :=
  if i = acc.1.get_self_id then acc
  else if acc.1.hasKey i then
    (acc.1.updateVal i (fun d => { d with status := .connected, last_seen := now }), acc.2)
  else
    (acc.1.add_or_update_drone now (rnd acc.2) i .connected none none none, acc.2 + 1)

/-- `EnhancedStateController.handle_network_status`: merge the gossiped
peer list (new peers get a fresh random position from `rnd`), then adopt
the announced master if it differs. -/
def handle_network_status (now : ℤ) (rnd : ℕ → ℤ × ℤ × ℤ) (c : Controller)
    (p : Msg) : Controller :=
  let ids := p.params.known_drones.getD []
  let c := { c with net := (ids.foldl (gossipStep now rnd) (c.net, 0)).1 }
  match p.params.master_id with
  | some m =>
      if !(m == 0) && !(c.net.master_drone_id == some m) then
        { c with net := { c.net with master_drone_id := some m },
                 last_master_heartbeat_time := now }
      else c
  | none => c

/-- `EnhancedStateController.share_network_status`. -/
def share_network_status (now : ℤ) (c : Controller) : List Msg :=
  let onlineIds := (c.net.get_online_drones now 30).map (fun d => d.drone_id)
  let ids := if onlineIds.contains c.net.get_self_id then onlineIds
             else onlineIds ++ [c.net.get_self_id]
  [mkMsg now c.net.get_self_id (-1) c.net.self_drone.status "NETWORK_STATUS"
    { MsgParams.empty with known_drones := some ids,
                           master_id := c.net.master_drone_id }]

/-- `EnhancedStateController.handle_id_conflict_resolution`: re-key the
record found under `old_id` to `new_id` — the record object itself is
re-identified, so if that record is the self record, the local identity
moves with it; if another record already sits at `new_id`, it is
overwritten (both params are required by the wire schema; a message
missing one is modelled as a no-op). -/
def handle_id_conflict_resolution (c : Controller) (p : Msg) : Controller :=
  match p.params.old_id, p.params.new_id with
  | some o, some nw =>
      match c.net.getSlot o with
      | some slot =>
          let net := { c.net with known_drones := DroneNetwork.dictDel o c.net.known_drones }
          let net := match slot with
            | .self =>
                { net with self_drone := { net.self_drone with drone_id := nw },
                           known_drones := DroneNetwork.dictSet nw .self net.known_drones }
            | .peer d =>
                { net with known_drones :=
                    DroneNetwork.dictSet nw (.peer { d with drone_id := nw }) net.known_drones }
          { c with net := net }
      | none => c
  | _, _ => c

/-- `EnhancedStateController.handle_master_election`: ignored when no
election is in progress; otherwise record the vote and participate if not
yet voted. -/
def handle_master_election (now : ℤ) (c : Controller) (p : Msg) : Controller × List Msg :=
  let cand := p.params.candidate_id.getD p.drone_id
  if !c.election_in_progress then (c, [])
  else
    let c := { c with election_votes := voteSet p.drone_id cand c.election_votes }
    if !c.has_voted then participate_in_election now c else (c, [])

/-- Candidate ids of the tally `vote_counts`, in first-vote order. -/
def voteCountKeys (votes : List (ℕ × ℕ)) : List ℕ :=
  votes.foldl (fun ks e => if ks.contains e.2 then ks else ks ++ [e.2]) []

/-- `vote_counts[cand]`. -/
def voteCount (votes : List (ℕ × ℕ)) (cand : ℕ) : ℕ :=
  votes.countP (fun e => e.2 == cand)

/-- The `min` key order of the tally: `(-votes, id)` lexicographic. -/
def tallyKeyLt (votes : List (ℕ × ℕ)) (a b : ℕ) : Bool :=
  voteCount votes b < voteCount votes a ||
    (voteCount votes a == voteCount votes b && a < b)

/-- The winner computed by `finalize_election`: self if no votes were
recorded, else the candidate minimizing `(-votes, id)`. -/
def electionWinner (votes : List (ℕ × ℕ)) (selfId : ℕ) : ℕ :=
  match voteCountKeys votes with
  | [] => selfId
  | h :: t => t.foldl (fun acc k => if tallyKeyLt votes k acc then k else acc) h

/-- The network-state update of `finalize_election`: install the winner as
master, set every online record's status to MASTER/SLAVE, then set the
node's own status explicitly. -/
def finalizeNet (now : ℤ) (winner : ℕ) (n : DroneNetwork) : DroneNetwork :=
  let net := DroneNetwork.setOnlineStatuses now winner
    { n with master_drone_id := some winner }
  let selfStatus := if winner = net.get_self_id then DroneStatus.master else DroneStatus.slave
  { net with self_drone := { net.self_drone with status := selfStatus } }

/-- `EnhancedStateController.finalize_election`. -/
def finalize_election (now : ℤ) (c : Controller) : Controller × List Msg :=
  if !c.election_in_progress then (c, [])
  else
    let winner := electionWinner c.election_votes c.net.get_self_id
    let net := finalizeNet now winner c.net
    let c := ({ c with
                net := net, election_in_progress := false,
                election_votes := [], has_voted := false,
                last_master_heartbeat_time := now } : Controller)
    (c, share_network_status now c)

/-- `EnhancedStateController.process_election_results`: finalize exactly
when an election is in progress and it has strictly exceeded its
timeout. -/
def process_election_results (now : ℤ) (c : Controller) : Controller × List Msg :=
  if c.election_in_progress && decide (c.election_timeout < now - c.election_start_time) then
    finalize_election now c
  else (c, [])

/-- `EnhancedStateController.check_master_status`: the master failure
detector. -/
def check_master_status (now : ℤ) (c : Controller) : Controller × List Msg :=
  if now - c.last_master_check_time < c.master_election_interval then (c, [])
  else
    let c := { c with last_master_check_time := now }
    if c.net.master_drone_id = none ∧ 1 < c.net.get_online_drone_count now 30 ∧
        c.election_in_progress = false then
      initiate_master_election now c
    else
      match c.net.master_drone_id with
      | some m =>
          if m ≠ 0 then
            let masterRec := c.net.get_drone m
            let masterOffline :=
              match masterRec with
              | none => true
              | some md =>
                  if !(is_online now c.master_timeout md) then true
                  else decide (c.master_timeout < now - c.last_master_heartbeat_time)
            let masterOffline :=
              if c.net.self_drone.status = .master then false else masterOffline
            if masterOffline then
              let net := { c.net with master_drone_id := none }
              let net := match masterRec with
                | some md =>
                    if !(is_online now c.master_timeout md) then net.remove_drone m else net
                | none => net
              let c := { c with net := net }
              if Nat.ble 1 (c.net.get_online_drone_count now 30) && !c.election_in_progress then
                initiate_master_election now c
              else (c, [])
            else (c, [])
          else (c, [])
      | none => (c, [])

/-- The sender-merge section of `handle_received_packet` (lines 106-129 of
the controller): with full telemetry, a full `add_or_update_drone`; with a
known sender, status + `last_seen` refresh in place; otherwise a bare
`add_or_update_drone` that keeps the fresh record's random position. -/
def mergeSender (now : ℤ) (rnd : ℕ → ℤ × ℤ × ℤ) (c : Controller) (p : Msg) :
    Controller :=
  if p.params.position.isSome && p.params.battery_level.isSome &&
      p.params.signal_strength.isSome then
    { c with net :=
        (c.net.add_or_update_drone now (rnd 0) p.drone_id p.current_state
          p.params.position p.params.battery_level p.params.signal_strength) }
  else if c.net.hasKey p.drone_id then
    { c with net :=
        (c.net.updateVal p.drone_id (fun d =>
          update_last_seen now { d with status := p.current_state })) }
  else
    { c with net :=
        (c.net.add_or_update_drone now (rnd 0) p.drone_id p.current_state none none none) }

/-- The action-dispatch section of `handle_received_packet`. -/
def dispatchAction (now : ℤ) (rnd : ℕ → ℤ × ℤ × ℤ) (c : Controller) (p : Msg) :
    Controller × List Msg :=
  if p.action == "PING" then (c, handle_ping now c p)
  else if p.action == "DISCOVERY_ANNOUNCE" then (c, handle_discovery_announce now c p)
  else if p.action == "DISCOVERY_RESPONSE" then (handle_discovery_response c p, [])
  else if p.action == "HEARTBEAT" then handle_heartbeat now c p
  else if p.action == "NETWORK_STATUS" then
    (handle_network_status now (fun k => rnd (k + 1)) c p, [])
  else if p.action == "ID_CONFLICT_RESOLUTION" then (handle_id_conflict_resolution c p, [])
  else if p.action == "ELECT_MASTER" then handle_master_election now c p
  else if p.action == "ACK" then (handle_ack c p, [])
  else (c, [])

/-- `EnhancedStateController.handle_received_packet`: the full per-message
dispatch.  `rnd` supplies the random initial positions of any records
created while processing this message (`rnd 0` for the sender, later
indices for gossiped peers); `draws`/`ts` feed `resolve_id_conflict` in
the conflict branch. -/
def handle_received_packet (now : ℤ) (rnd : ℕ → ℤ × ℤ × ℤ) (draws : ℕ → ℕ)
    (ts : ℕ) (c : Controller) (p : Msg) : Controller × List Msg :=
  let sender := p.drone_id
  if sender = c.net.get_self_id then (c, [])
  else if c.net.detect_id_conflict sender sender then
    let r := c.net.resolve_id_conflict draws ts
    ({ c with net := r.2 },
     [mkMsg now r.1 (-1) r.2.self_drone.status "ID_CONFLICT_RESOLUTION"
        { MsgParams.empty with old_id := some sender, new_id := some r.1 }])
  else
    let c := mergeSender now rnd c p
    let r := dispatchAction now rnd c p
    ({ r.1 with net := r.1.net.update_network_status now }, r.2)

end Controller

/-! ## Shared concrete states for witnesses and counterexamples -/

/-- A connected self record with id 5. -/
def exSelf : DroneState :=
  { drone_id := 5, status := .connected, last_seen := 100, discovery_time := 0,
    position := (1, 2, 3), battery_level := 90, is_self := true,
    ping_count := 0, response_count := 0, signal_strength := 0, capabilities := [] }

/-- A connected peer record with id 7. -/
def exPeer : DroneState :=
  { drone_id := 7, status := .connected, last_seen := 100, discovery_time := 0,
    position := (4, 5, 6), battery_level := 80, is_self := false,
    ping_count := 0, response_count := 0, signal_strength := 0, capabilities := [] }

/-- A two-node view: self 5 (master) and peer 7, both online at time 101. -/
def exNet : DroneNetwork :=
  { self_drone := exSelf, known_drones := [(5, .self), (7, .peer exPeer)],
    master_drone_id := some 5, network_established := true, id_conflicts := [] }

/-- A controller over `n` with the timers idle and no election running. -/
def exCtrl (n : DroneNetwork) : Controller :=
  { net := n, master_election_interval := 4, master_timeout := 12,
    election_in_progress := false, election_start_time := 0, election_timeout := 5,
    election_votes := [], has_voted := false,
    last_master_heartbeat_time := 100, last_master_check_time := 0 }

/-! ## Claims -/

/-- **C10** (confirmed).  For every valid message (fields drawn from the
JSON-representable value domain), decoding the document produced by
encoding it restores every field: `decode_json (to_json m) = some m`.
(The byte-level `json.dumps`/`json.loads` pair is the Python standard
library, external to this repository; the codec is modelled at the JSON
document level.) -/
theorem C10_codec_round_trip : ∀ m : WireMsg, decode_json (to_json m) = some m :=
  fun _ => rfl

/-- **C6** (counterexample).  With every random draw colliding (`draws ≡ 7`,
id 7 being a known peer) and `ts = 6`, the fallback path returns
`6 % 65535 + 1 = 7` — an id that *is* present in `knownRecords` at the
moment of the call, contradicting the claim that the returned id is never
present. -/
theorem C6_counterexample :
    (DroneNetwork.resolve_id_conflict (fun _ => 7) 6 exNet).1 = 7 ∧
      DroneNetwork.hasKey 7 exNet = true := by
  constructor <;> rfl

/-- **C6** (amended).  `resolve_id_conflict` always appends exactly one
`(oldId, newId)` pair to the conflict log; the returned id is fresh
(absent from `knownRecords` at call time) whenever some of the 100 random
draws was fresh, and otherwise it is the timestamp-derived fallback
`ts % 65535 + 1`, which lies in `1..65535` (never 0) but may collide with
an existing record. -/
theorem C6_resolve_id_conflict_amended (draws : ℕ → ℕ) (ts : ℕ) (n : DroneNetwork) :
    (DroneNetwork.resolve_id_conflict draws ts n).2.id_conflicts =
        n.id_conflicts ++ [(n.get_self_id, (DroneNetwork.resolve_id_conflict draws ts n).1)] ∧
      (DroneNetwork.hasKey (DroneNetwork.resolve_id_conflict draws ts n).1 n = false ∨
        (DroneNetwork.findFresh draws n = none ∧
          (DroneNetwork.resolve_id_conflict draws ts n).1 = ts % 65535 + 1 ∧
          1 ≤ (DroneNetwork.resolve_id_conflict draws ts n).1 ∧
          (DroneNetwork.resolve_id_conflict draws ts n).1 ≤ 65535)) := by
  unfold DroneNetwork.resolve_id_conflict
  cases h : DroneNetwork.findFresh draws n with
  | some v =>
      refine ⟨rfl, Or.inl ?_⟩
      unfold DroneNetwork.findFresh at h
      obtain ⟨a, _, ha⟩ := List.exists_of_findSome?_eq_some h
      by_cases hk : DroneNetwork.hasKey (draws a) n
      · simp [hk] at ha
      · simp [hk] at ha
        simpa [← ha] using hk
  | none =>
      refine ⟨rfl, Or.inr ⟨rfl, rfl, Nat.le_add_left 1 _, ?_⟩⟩
      show ts % 65535 + 1 ≤ 65535
      have : ts % 65535 < 65535 := Nat.mod_lt ts (by decide)
      omega

/-- The record object found at key `i` is the one `find?` returns, so a
successful lookup implies key membership. -/
theorem hasKey_of_getSlot {i : ℕ} {s : Slot} {n : DroneNetwork}
    (h : n.getSlot i = some s) : n.hasKey i = true := by
  unfold DroneNetwork.getSlot at h
  unfold DroneNetwork.hasKey
  cases hf : n.known_drones.find? (fun e => e.1 == i) with
  | none => rw [hf] at h; simp at h
  | some e =>
      have hm := List.mem_of_find?_eq_some hf
      have hp := List.find?_some hf
      simp only [List.any_eq_true]
      exact ⟨e, hm, hp⟩

/-- **C8** (counterexample).  `addOrUpdate` targeted at the current self id
(5) is *not* rejected: the self record is mutated through the peer-update
path — its status is overwritten (CONNECTED → SEEKING) and its `lastSeen`
refreshed (100 → 101). -/
theorem C8_counterexample :
    DroneNetwork.get_self_id exNet = 5 ∧
      exNet.self_drone.status = .connected ∧ exNet.self_drone.last_seen = 100 ∧
      (DroneNetwork.add_or_update_drone 101 (0, 0, 0) 5 .seeking none none none
          exNet).self_drone.status = .seeking ∧
      (DroneNetwork.add_or_update_drone 101 (0, 0, 0) 5 .seeking none none none
          exNet).self_drone.last_seen = 101 := by
  exact ⟨rfl, rfl, rfl, rfl, rfl⟩

/-- **C8** (amended).  A call `addOrUpdate(selfId, ...)` is only *flagged*
(a diagnostic print, no state effect); the update then proceeds through
the ordinary known-record path, so the self record receives exactly the
normal field-update pipeline: status overwritten, optional position /
battery / signal applied, `lastSeen` set to now. -/
theorem C8_self_update_proceeds_amended (now : ℤ) (fresh : ℤ × ℤ × ℤ)
    (st : DroneStatus) (pos : Option (ℤ × ℤ × ℤ)) (bat sig : Option ℤ)
    (n : DroneNetwork) (h : n.getSlot n.get_self_id = some .self) :
    (DroneNetwork.add_or_update_drone now fresh n.get_self_id st pos bat sig
        n).self_drone = DroneNetwork.applyUpd now st pos bat sig n.self_drone := by
  unfold DroneNetwork.add_or_update_drone
  rw [hasKey_of_getSlot h]
  simp [DroneNetwork.updateVal, h]

/-- **C8** witness: the amended theorem applied at the concrete two-node
state. -/
theorem C8_self_update_proceeds_witness :
    (DroneNetwork.add_or_update_drone 101 (0, 0, 0) (DroneNetwork.get_self_id exNet)
        .seeking none none none exNet).self_drone =
      DroneNetwork.applyUpd 101 .seeking none none none exNet.self_drone :=
  C8_self_update_proceeds_amended 101 (0, 0, 0) .seeking none none none exNet rfl

/-- A PING from the unknown sender 8, addressed point-to-point to id 99
(neither broadcast `-1` nor our own id 5). -/
def exPing99 : Msg :=
  { timestamp := 0, drone_id := 8, destination_id := 99, current_state := .connected,
    action := "PING", params := MsgParams.empty }

/-- **C9** (counterexample).  A message whose `destinationId` is the
specific id 99 — not broadcast, not our id 5 — is *not* ignored: the
dispatch merges the sender (id 8 becomes a known record) and emits an ACK
reply. -/
theorem C9_counterexample :
    exPing99.destination_id = 99 ∧ (DroneNetwork.get_self_id exNet : ℤ) = 5 ∧
      DroneNetwork.hasKey 8 exNet = false ∧
      ((Controller.handle_received_packet 101 (fun _ => (1, 1, 1)) (fun _ => 1) 0
          (exCtrl exNet) exPing99).2.map (fun m => m.action)) = ["ACK"] ∧
      DroneNetwork.hasKey 8
          (Controller.handle_received_packet 101 (fun _ => (1, 1, 1)) (fun _ => 1) 0
            (exCtrl exNet) exPing99).1.net = true := by
  exact ⟨rfl, rfl, rfl, rfl, rfl⟩

/-- **C9** (amended).  The dispatch never reads `destinationId` at all:
processing a received message is entirely independent of its destination
field (point-to-point addressing is not enforced on receive). -/
theorem C9_destination_ignored_amended (now : ℤ) (rnd : ℕ → ℤ × ℤ × ℤ)
    (draws : ℕ → ℕ) (ts : ℕ) (c : Controller) (p : Msg) (d : ℤ) :
    Controller.handle_received_packet now rnd draws ts c { p with destination_id := d } =
      Controller.handle_received_packet now rnd draws ts c p := by
  cases p
  rfl

/-- The key list of the view's record map. -/
def keysOf (n : DroneNetwork) : List ℕ := n.known_drones.map Prod.fst

/-- Mapping entry-by-entry with a key-preserving function leaves the key
list unchanged. -/
theorem map_fst_map_of_fst_eq {α β : Type} (g : α × β → α × β)
    (h : ∀ e, (g e).1 = e.1) (l : List (α × β)) :
    (l.map g).map Prod.fst = l.map Prod.fst := by
  induction l with
  | nil => rfl
  | cons e t ih => simp [h e, ih]

/-- `setOnlineStatuses` only rewrites statuses: keys unchanged. -/
theorem keysOf_setOnlineStatuses (now : ℤ) (mid : ℕ) (n : DroneNetwork) :
    keysOf (DroneNetwork.setOnlineStatuses now mid n) = keysOf n := by
  unfold keysOf DroneNetwork.setOnlineStatuses
  apply map_fst_map_of_fst_eq
  intro e
  cases e with
  | mk k s => cases s with
    | self => rfl
    | peer d => by_cases h : is_online now 30 d = true <;> simp [h]

/-- `setOnlineStatuses` does not change the self record's identity. -/
theorem selfId_setOnlineStatuses (now : ℤ) (mid : ℕ) (n : DroneNetwork) :
    (DroneNetwork.setOnlineStatuses now mid n).self_drone.drone_id =
      n.self_drone.drone_id := by
  unfold DroneNetwork.setOnlineStatuses
  dsimp only
  split <;> rfl

/-- `elect_master` rewrites `masterId` and statuses only: keys, self id,
conflict log and the established flag are untouched. -/
theorem elect_master_frame (now : ℤ) (n : DroneNetwork) :
    keysOf (DroneNetwork.elect_master now n).2 = keysOf n ∧
      (DroneNetwork.elect_master now n).2.self_drone.drone_id = n.self_drone.drone_id ∧
      (DroneNetwork.elect_master now n).2.id_conflicts = n.id_conflicts ∧
      (DroneNetwork.elect_master now n).2.network_established = n.network_established := by
  unfold DroneNetwork.elect_master
  cases h : n.get_online_drones now 30 with
  | nil => exact ⟨rfl, rfl, rfl, rfl⟩
  | cons d t =>
      refine ⟨?_, ?_, rfl, rfl⟩
      · exact keysOf_setOnlineStatuses now _ { n with master_drone_id := _ }
      · exact selfId_setOnlineStatuses now _ { n with master_drone_id := _ }

/-- **C3** (counterexample).  With `masterId = 9` recorded but id 9 absent
from the records, `updateNetworkStatus` at time 101 does *not* merely
clear `masterId`: it immediately elects id 5 master and rewrites record
statuses (the self record goes CONNECTED → MASTER). -/
theorem C3_counterexample :
    (DroneNetwork.update_network_status 101
        { exNet with master_drone_id := some 9 }).master_drone_id = some 5 ∧
      exNet.self_drone.status = .connected ∧
      (DroneNetwork.update_network_status 101
        { exNet with master_drone_id := some 9 }).self_drone.status = .master := by
  exact ⟨rfl, rfl, rfl⟩

/-- **C3** (amended).  `updateNetworkStatus` (1) sets `networkEstablished`
to `onlineCount > 1`, (2) never touches the conflict log, the self id or
the key set, (3) when the recorded master is present and online it changes
nothing else, (4) when the master record is missing/offline and at most
one node is online it only clears `masterId` — but (5) when the master
record is missing/offline and the network is established it additionally
runs a full local `elect_master`, which installs a new master and rewrites
online records' statuses. -/
theorem C3_update_network_status_amended (now : ℤ) (n : DroneNetwork) :
    (DroneNetwork.update_network_status now n).network_established =
        decide (DroneNetwork.get_online_drone_count now 30 n > 1) ∧
      (DroneNetwork.update_network_status now n).id_conflicts = n.id_conflicts ∧
      (DroneNetwork.update_network_status now n).self_drone.drone_id =
        n.self_drone.drone_id ∧
      keysOf (DroneNetwork.update_network_status now n) = keysOf n ∧
      (DroneNetwork.masterMissing now n = false →
        DroneNetwork.update_network_status now n =
          { n with network_established :=
              decide (DroneNetwork.get_online_drone_count now 30 n > 1) }) ∧
      (DroneNetwork.masterMissing now n = true →
        DroneNetwork.get_online_drone_count now 30 n ≤ 1 →
        DroneNetwork.update_network_status now n =
          { n with network_established := false, master_drone_id := none }) ∧
      (DroneNetwork.masterMissing now n = true →
        DroneNetwork.get_online_drone_count now 30 n > 1 →
        DroneNetwork.update_network_status now n =
          (DroneNetwork.elect_master now
            { n with network_established := true, master_drone_id := none }).2) := by
  unfold DroneNetwork.update_network_status
  by_cases h0 : DroneNetwork.masterMissing now n = true
  · by_cases h1 : DroneNetwork.get_online_drone_count now 30 n > 1
    · have hd : decide (DroneNetwork.get_online_drone_count now 30 n > 1) = true :=
        decide_eq_true h1
      rw [h0, hd, if_pos rfl, if_pos rfl]
      obtain ⟨hk, hs, hi, hn⟩ := elect_master_frame now
        { n with network_established := true, master_drone_id := none }
      refine ⟨?_, hi, hs, hk, ?_, ?_, fun _ _ => rfl⟩
      · rw [hn]
      · intro hc; exact Bool.noConfusion hc
      · intro _ hc; omega
    · have hd : decide (DroneNetwork.get_online_drone_count now 30 n > 1) = false :=
        decide_eq_false h1
      rw [h0, hd, if_pos rfl, if_neg (fun hc => Bool.noConfusion hc)]
      refine ⟨rfl, rfl, rfl, rfl, ?_, fun _ _ => rfl, ?_⟩
      · intro hc; exact Bool.noConfusion hc
      · intro _ hc; omega
  · rw [Bool.not_eq_true] at h0
    rw [h0, if_neg (fun hc => Bool.noConfusion hc)]
    refine ⟨rfl, rfl, rfl, rfl, fun _ => rfl, ?_, ?_⟩
    · intro hc; exact Bool.noConfusion hc
    · intro hc; exact Bool.noConfusion hc

/-- **C3** witness: the amended theorem applied at the concrete state with
a missing master and an established network — the corrected branch fires
and runs `elect_master`. -/
theorem C3_update_network_status_witness :
    DroneNetwork.update_network_status 101 { exNet with master_drone_id := some 9 } =
      (DroneNetwork.elect_master 101
        { exNet with master_drone_id := none, network_established := true }).2 :=
  (C3_update_network_status_amended 101
      { exNet with master_drone_id := some 9 }).2.2.2.2.2.2 (by decide) (by decide)

/-- The `params` dict built by `DronePacket.heartbeat`
(drone_packet.py lines 81-89): keys `position`, `battery_level` and
`heartbeat_time`, nothing else — in particular **no** `status` key.
(`heartbeat_time` is read by no handler and is not carried by
`MsgParams`.) -/
def heartbeatParams (pos : ℤ × ℤ × ℤ) (bat : ℤ) : MsgParams :=
  { MsgParams.empty with position := some pos, battery_level := some bat }

/-- A `HEARTBEAT` message exactly as `DronePacket.heartbeat` sends it:
the sender's claimed state travels in the wire status field
`current_state`; the params carry only position/battery/time. -/
def heartbeatMsg (t : ℤ) (sender : ℕ) (st : DroneStatus)
    (pos : ℤ × ℤ × ℤ) (bat : ℤ) : Msg :=
  { timestamp := t, drone_id := sender, destination_id := -1,
    current_state := st, action := "HEARTBEAT",
    params := heartbeatParams pos bat }

/-- A hand-crafted heartbeat from id 9 whose `params["status"]` claims
master (no heartbeat built by `DronePacket` ever carries this key). -/
def exHeartbeat9 : Msg :=
  { timestamp := 0, drone_id := 9, destination_id := -1, current_state := .master,
    action := "HEARTBEAT", params := { MsgParams.empty with status := some "master" } }

/-- **C2** (counterexample).  A heartbeat from id 9 exactly as
`DronePacket.heartbeat` builds it, with wire status field
(`current_state`, the spec's `senderStatus`) claiming master, arrives
while `masterId = 5` and **no** election is in progress — the very
scenario of the claim.  Nothing happens: `masterId` stays 5, no election
starts, nothing is broadcast.  The code's conflicting-master check reads
`params.get('status')`, a key no heartbeat carries, and ignores
`current_state`. -/
theorem C2_counterexample :
    (Controller.handle_heartbeat 101 (exCtrl exNet)
        (heartbeatMsg 0 9 .master (0, 0, 0) 100)).1.net.master_drone_id = some 5 ∧
      (Controller.handle_heartbeat 101 (exCtrl exNet)
        (heartbeatMsg 0 9 .master (0, 0, 0) 100)).1.election_in_progress = false ∧
      ((Controller.handle_heartbeat 101 (exCtrl exNet)
        (heartbeatMsg 0 9 .master (0, 0, 0) 100)).2) = [] := by
  exact ⟨rfl, rfl, rfl⟩

/-- **C2** (amended).  The conflicting-master check is keyed to
`params["status"]`, not to the wire status field `current_state` that
carries the sender's claimed state (`senderStatus`, spec §3), and
`DronePacket.heartbeat` never puts a `status` key in params.  So with a
different (truthy) id `m` recorded as master: (a) on any message whose
params lack the `status` key — every heartbeat this system emits,
whatever its `current_state`, including `"master"` — `masterId` is left
unchanged, the election flag is untouched and nothing is broadcast;
(b) only a message whose params explicitly carry `status="master"`
triggers the branch, and then only when no election is in progress:
`masterId` is cleared and an election starts at once (start time `now`,
node votes immediately, one `ELECT_MASTER` broadcast); (c) with an
election already in progress even that message changes nothing. -/
theorem C2_conflicting_master_claim_amended (now : ℤ) (c : Controller) (p : Msg)
    (m : ℕ) (hm : c.net.master_drone_id = some m) (hm0 : m ≠ 0)
    (hms : m ≠ p.drone_id) :
    (p.params.status = none →
      (Controller.handle_heartbeat now c p).1.net.master_drone_id = some m ∧
      (Controller.handle_heartbeat now c p).1.election_in_progress =
        c.election_in_progress ∧
      (Controller.handle_heartbeat now c p).2 = []) ∧
    (p.params.status = some "master" → c.election_in_progress = false →
      (Controller.handle_heartbeat now c p).1.net.master_drone_id = none ∧
      (Controller.handle_heartbeat now c p).1.election_in_progress = true ∧
      (Controller.handle_heartbeat now c p).1.election_start_time = now ∧
      (Controller.handle_heartbeat now c p).1.has_voted = true ∧
      ((Controller.handle_heartbeat now c p).2.map (fun o => o.action)) =
        ["ELECT_MASTER"]) ∧
    (p.params.status = some "master" → c.election_in_progress = true →
      (Controller.handle_heartbeat now c p).1.net.master_drone_id = some m ∧
      (Controller.handle_heartbeat now c p).2 = []) := by
  have hb0 : (m == 0) = false := beq_eq_false_iff_ne.mpr hm0
  have hbs : (m == p.drone_id) = false := beq_eq_false_iff_ne.mpr hms
  have hm' : (DroneNetwork.updateVal p.drone_id (update_last_seen now)
      c.net).master_drone_id = some m := hm
  refine ⟨?_, ?_, ?_⟩
  · intro hst
    unfold Controller.handle_heartbeat
    rw [hm, if_neg (fun hc => hms (Option.some.inj hc))]
    dsimp only
    rw [hst, Option.getD_none,
      show (("unknown" : String) == "master") = false from rfl, Bool.false_and,
      if_neg (fun hc => Bool.noConfusion hc)]
    exact ⟨hm', rfl, rfl⟩
  · intro hst he
    unfold Controller.handle_heartbeat
    rw [hm, if_neg (fun hc => hms (Option.some.inj hc))]
    dsimp only
    rw [hm']
    simp only [hst, Option.getD_some, beq_self_eq_true, hb0, hbs, Bool.not_false,
      Bool.and_self, Bool.true_and, if_true]
    simp only [he, Bool.not_false, if_true]
    unfold Controller.initiate_master_election Controller.participate_in_election
    simp [he, mkMsg]
  · intro hst he
    unfold Controller.handle_heartbeat
    rw [hm, if_neg (fun hc => hms (Option.some.inj hc))]
    dsimp only
    rw [hm']
    simp only [hst, Option.getD_some, beq_self_eq_true, hb0, hbs, Bool.not_false,
      Bool.and_self, Bool.true_and, if_true]
    simp only [he, Bool.not_true, if_false]
    exact ⟨hm', rfl⟩

/-- **C2** witness: the amended theorem at the concrete state (master 5
recorded, no election running) — part (a) at a genuine
`DronePacket.heartbeat` from id 9 claiming master in `current_state`
(nothing happens), part (b) at the hand-crafted heartbeat whose params
carry `status="master"` (the election fires). -/
theorem C2_conflicting_master_claim_witness :
    ((Controller.handle_heartbeat 101 (exCtrl exNet)
        (heartbeatMsg 0 9 .master (7, 7, 7) 100)).1.net.master_drone_id = some 5 ∧
      (Controller.handle_heartbeat 101 (exCtrl exNet)
        (heartbeatMsg 0 9 .master (7, 7, 7) 100)).1.election_in_progress = false ∧
      (Controller.handle_heartbeat 101 (exCtrl exNet)
        (heartbeatMsg 0 9 .master (7, 7, 7) 100)).2 = []) ∧
    ((Controller.handle_heartbeat 101 (exCtrl exNet)
        exHeartbeat9).1.net.master_drone_id = none ∧
      (Controller.handle_heartbeat 101 (exCtrl exNet)
        exHeartbeat9).1.election_in_progress = true ∧
      (Controller.handle_heartbeat 101 (exCtrl exNet)
        exHeartbeat9).1.election_start_time = 101 ∧
      (Controller.handle_heartbeat 101 (exCtrl exNet) exHeartbeat9).1.has_voted = true ∧
      ((Controller.handle_heartbeat 101 (exCtrl exNet) exHeartbeat9).2.map
        (fun o => o.action)) = ["ELECT_MASTER"]) := by
  constructor
  · have h := (C2_conflicting_master_claim_amended 101 (exCtrl exNet)
      (heartbeatMsg 0 9 .master (7, 7, 7) 100) 5 rfl (by decide) (by decide)).1 rfl
    exact ⟨h.1, h.2.1, h.2.2⟩
  · exact (C2_conflicting_master_claim_amended 101 (exCtrl exNet) exHeartbeat9 5 rfl
      (by decide) (by decide)).2.1 rfl rfl

/-! ### Frame facts: only `resolve_id_conflict` touches the conflict log -/

theorem id_conflicts_updateVal (i : ℕ) (f : DroneState → DroneState) (n : DroneNetwork) :
    (DroneNetwork.updateVal i f n).id_conflicts = n.id_conflicts := rfl

theorem id_conflicts_add_or_update (now : ℤ) (fresh : ℤ × ℤ × ℤ) (i : ℕ)
    (st : DroneStatus) (pos : Option (ℤ × ℤ × ℤ)) (bat sig : Option ℤ)
    (n : DroneNetwork) :
    (DroneNetwork.add_or_update_drone now fresh i st pos bat sig n).id_conflicts =
      n.id_conflicts := by
  unfold DroneNetwork.add_or_update_drone
  split <;> rfl

theorem id_conflicts_update_network_status (now : ℤ) (n : DroneNetwork) :
    (DroneNetwork.update_network_status now n).id_conflicts = n.id_conflicts := by
  unfold DroneNetwork.update_network_status
  by_cases h0 : DroneNetwork.masterMissing now n = true
  · rw [h0, if_pos rfl]
    cases hd : decide (DroneNetwork.get_online_drone_count now 30 n > 1) with
    | false => rw [if_neg (fun hc => Bool.noConfusion hc)]
    | true =>
        rw [if_pos rfl]
        exact (elect_master_frame now _).2.2.1
  · rw [Bool.not_eq_true] at h0
    rw [h0, if_neg (fun hc => Bool.noConfusion hc)]

theorem net_participate (now : ℤ) (c : Controller) :
    (Controller.participate_in_election now c).1.net = c.net := by
  unfold Controller.participate_in_election
  split <;> rfl

theorem net_initiate (now : ℤ) (c : Controller) :
    (Controller.initiate_master_election now c).1.net = c.net := by
  unfold Controller.initiate_master_election
  split
  · rfl
  · exact net_participate now _

theorem id_conflicts_handle_heartbeat (now : ℤ) (c : Controller) (p : Msg) :
    (Controller.handle_heartbeat now c p).1.net.id_conflicts = c.net.id_conflicts := by
  unfold Controller.handle_heartbeat
  dsimp only
  repeat' split
  all_goals first
    | rfl
    | (rw [net_initiate]; rfl)

theorem id_conflicts_gossipFold (now : ℤ) (rnd : ℕ → ℤ × ℤ × ℤ) (ids : List ℕ) :
    ∀ acc : DroneNetwork × ℕ,
      ((ids.foldl (Controller.gossipStep now rnd) acc).1).id_conflicts =
        acc.1.id_conflicts := by
  induction ids with
  | nil => intro acc; rfl
  | cons i t ih =>
      intro acc
      rw [List.foldl_cons, ih]
      unfold Controller.gossipStep
      split
      · rfl
      · split
        · rfl
        · exact id_conflicts_add_or_update now _ i .connected none none none acc.1

theorem id_conflicts_handle_network_status (now : ℤ) (rnd : ℕ → ℤ × ℤ × ℤ)
    (c : Controller) (p : Msg) :
    (Controller.handle_network_status now rnd c p).net.id_conflicts =
      c.net.id_conflicts := by
  unfold Controller.handle_network_status
  dsimp only
  split
  · split
    · exact id_conflicts_gossipFold now rnd _ _
    · exact id_conflicts_gossipFold now rnd _ _
  · exact id_conflicts_gossipFold now rnd _ _

theorem id_conflicts_handle_icr (c : Controller) (p : Msg) :
    (Controller.handle_id_conflict_resolution c p).net.id_conflicts =
      c.net.id_conflicts := by
  unfold Controller.handle_id_conflict_resolution
  split
  · split
    · split <;> rfl
    · rfl
  · rfl

theorem id_conflicts_handle_master_election (now : ℤ) (c : Controller) (p : Msg) :
    (Controller.handle_master_election now c p).1.net.id_conflicts =
      c.net.id_conflicts := by
  unfold Controller.handle_master_election
  dsimp only
  repeat' split
  all_goals first
    | rfl
    | rw [net_participate]

theorem id_conflicts_mergeSender (now : ℤ) (rnd : ℕ → ℤ × ℤ × ℤ)
    (c : Controller) (p : Msg) :
    (Controller.mergeSender now rnd c p).net.id_conflicts = c.net.id_conflicts := by
  unfold Controller.mergeSender
  split
  · exact id_conflicts_add_or_update now _ _ _ _ _ _ c.net
  · split
    · rfl
    · exact id_conflicts_add_or_update now _ _ _ none none none c.net

theorem id_conflicts_dispatchAction (now : ℤ) (rnd : ℕ → ℤ × ℤ × ℤ)
    (c : Controller) (p : Msg) :
    (Controller.dispatchAction now rnd c p).1.net.id_conflicts =
      c.net.id_conflicts := by
  unfold Controller.dispatchAction
  repeat' split
  all_goals first
    | rfl
    | exact id_conflicts_handle_heartbeat now c p
    | exact id_conflicts_handle_network_status now _ c p
    | exact id_conflicts_handle_icr c p
    | exact id_conflicts_handle_master_election now c p
    | (unfold Controller.handle_discovery_response; split <;> rfl)

/-- Every message the election path broadcasts is an `ELECT_MASTER` vote. -/
theorem outputs_participate_ok (now : ℤ) (c : Controller) :
    ((Controller.participate_in_election now c).2.all
      (fun o => !(o.action == "ID_CONFLICT_RESOLUTION"))) = true := by
  unfold Controller.participate_in_election
  split <;> rfl

theorem outputs_initiate_ok (now : ℤ) (c : Controller) :
    ((Controller.initiate_master_election now c).2.all
      (fun o => !(o.action == "ID_CONFLICT_RESOLUTION"))) = true := by
  unfold Controller.initiate_master_election
  split
  · rfl
  · exact outputs_participate_ok now _

theorem outputs_handle_heartbeat_ok (now : ℤ) (c : Controller) (p : Msg) :
    ((Controller.handle_heartbeat now c p).2.all
      (fun o => !(o.action == "ID_CONFLICT_RESOLUTION"))) = true := by
  unfold Controller.handle_heartbeat
  dsimp only
  repeat' split
  all_goals first
    | rfl
    | exact outputs_initiate_ok now _

theorem outputs_handle_master_election_ok (now : ℤ) (c : Controller) (p : Msg) :
    ((Controller.handle_master_election now c p).2.all
      (fun o => !(o.action == "ID_CONFLICT_RESOLUTION"))) = true := by
  unfold Controller.handle_master_election
  dsimp only
  repeat' split
  all_goals first
    | rfl
    | exact outputs_participate_ok now _

theorem outputs_dispatchAction_ok (now : ℤ) (rnd : ℕ → ℤ × ℤ × ℤ)
    (c : Controller) (p : Msg) :
    ((Controller.dispatchAction now rnd c p).2.all
      (fun o => !(o.action == "ID_CONFLICT_RESOLUTION"))) = true := by
  unfold Controller.dispatchAction
  repeat' split
  all_goals first
    | rfl
    | exact outputs_handle_heartbeat_ok now c p
    | exact outputs_handle_master_election_ok now c p

/-- **C1** (code bug).  The ID-conflict branch of the packet dispatch is
unreachable: packets whose `senderId` equals our id are dropped by the
preceding self-filter, and for any other packet the dispatch calls
`detectIdConflict(senderId, senderId)` — with the *same* value for
reported and reporter ids — which is false by definition.  Hence no
received message ever triggers conflict resolution: the conflict log never
grows during dispatch, and no `ID_CONFLICT_RESOLUTION` message is ever
emitted — contradicting the specified resolve-and-broadcast behaviour. -/
theorem C1_conflict_branch_unreachable (now : ℤ) (rnd : ℕ → ℤ × ℤ × ℤ)
    (draws : ℕ → ℕ) (ts : ℕ) (c : Controller) (p : Msg) :
    (Controller.handle_received_packet now rnd draws ts c p).1.net.id_conflicts =
        c.net.id_conflicts ∧
      ((Controller.handle_received_packet now rnd draws ts c p).2.all
        (fun o => !(o.action == "ID_CONFLICT_RESOLUTION"))) = true := by
  have hdet : DroneNetwork.detect_id_conflict p.drone_id p.drone_id c.net = false := by
    unfold DroneNetwork.detect_id_conflict
    exact Bool.and_not_self _
  unfold Controller.handle_received_packet
  by_cases hs : p.drone_id = c.net.get_self_id
  · rw [if_pos hs]
    exact ⟨rfl, rfl⟩
  · rw [if_neg hs, hdet, if_neg (fun hc => Bool.noConfusion hc)]
    dsimp only
    constructor
    · rw [id_conflicts_update_network_status, id_conflicts_dispatchAction,
        id_conflicts_mergeSender]
    · exact outputs_dispatchAction_ok now rnd _ p

/-- A view where only the self record (id 5, SLAVE, online at 101) exists
while `masterId = 9` dangles. -/
def exNetLone : DroneNetwork :=
  { self_drone := { exSelf with status := .slave }, known_drones := [(5, .self)],
    master_drone_id := some 9, network_established := false, id_conflicts := [] }

/-- **C4** (code bug).  With the master id 9 absent and *zero other online
nodes*, the failure detector still initiates an election: the guard counts
all online records — including the node itself — so `onlineCount >= 1`
always holds and the claimed "otherwise it stays masterless" branch is
unreachable.  Here: no other online node exists, yet after the check an
election is in progress (and the node has voted for itself). -/
theorem C4_elects_with_no_other_nodes :
    ((DroneNetwork.get_online_drones 101 30 exNetLone).filter
        (fun d => !(d.drone_id == DroneNetwork.get_self_id exNetLone))).length = 0 ∧
      DroneNetwork.getSlot 9 exNetLone = none ∧
      (Controller.check_master_status 101 (exCtrl exNetLone)).1.net.master_drone_id =
        none ∧
      (Controller.check_master_status 101 (exCtrl exNetLone)).1.election_in_progress =
        true := by
  exact ⟨rfl, rfl, rfl, rfl⟩

/-! ### The tally order of `finalize_election` (for C5) -/

theorem tallyKeyLt_irrefl (votes : List (ℕ × ℕ)) (a : ℕ) :
    Controller.tallyKeyLt votes a a = false := by
  simp [Controller.tallyKeyLt]

theorem tallyKeyLt_trans (votes : List (ℕ × ℕ)) (a b c : ℕ)
    (h1 : Controller.tallyKeyLt votes a b = true)
    (h2 : Controller.tallyKeyLt votes b c = true) :
    Controller.tallyKeyLt votes a c = true := by
  simp [Controller.tallyKeyLt] at h1 h2 ⊢
  omega

theorem tallyKeyLt_notLt_trans (votes : List (ℕ × ℕ)) (a b c : ℕ)
    (h1 : Controller.tallyKeyLt votes a b = false)
    (h2 : Controller.tallyKeyLt votes b c = false) :
    Controller.tallyKeyLt votes a c = false := by
  simp [Controller.tallyKeyLt] at h1 h2 ⊢
  omega

/-- The winner fold keeps an element of the candidate list. -/
theorem tallyFold_mem (votes : List (ℕ × ℕ)) (t : List ℕ) :
    ∀ h : ℕ, t.foldl (fun acc k => if Controller.tallyKeyLt votes k acc then k else acc) h
      ∈ h :: t := by
  induction t with
  | nil => intro h; exact List.mem_cons_self h []
  | cons k t ih =>
      intro h
      rw [List.foldl_cons]
      rcases List.mem_cons.mp (ih (if Controller.tallyKeyLt votes k h then k else h)) with
        h1 | h1
      · rw [h1]
        by_cases hc : Controller.tallyKeyLt votes k h = true

        · rw [if_pos hc]; exact List.mem_cons_of_mem h (List.mem_cons_self k t)
        · rw [if_neg hc]; exact List.mem_cons_self h (k :: t)
      · exact List.mem_cons_of_mem h (List.mem_cons_of_mem k h1)

/-- No candidate in the list beats the winner fold's result in the
`(-votes, id)` order. -/
theorem tallyFold_min (votes : List (ℕ × ℕ)) (t : List ℕ) :
    ∀ h x : ℕ, x ∈ h :: t →
      Controller.tallyKeyLt votes x
        (t.foldl (fun acc k => if Controller.tallyKeyLt votes k acc then k else acc) h) =
          false := by
  induction t with
  | nil =>
      intro h x hx
      rw [List.mem_singleton] at hx
      subst hx
      exact tallyKeyLt_irrefl votes x
  | cons k t ih =>
      intro h x hx
      rw [List.foldl_cons]
      by_cases hc : Controller.tallyKeyLt votes k h = true
      · rw [if_pos hc]
        have hkr := ih k k (List.mem_cons_self k t)
        rcases List.mem_cons.mp hx with rfl | hx'
        · by_cases hxr : Controller.tallyKeyLt votes x
            (t.foldl (fun acc k => if Controller.tallyKeyLt votes k acc then k else acc) k) = true
          · exact absurd (tallyKeyLt_trans votes k x _ hc hxr) (by rw [hkr]; exact fun h => Bool.noConfusion h)
          · exact Bool.not_eq_true _ ▸ (Bool.of_not_eq_true hxr)
        · rcases List.mem_cons.mp hx' with rfl | hx''
          · exact hkr
          · exact ih k x (List.mem_cons_of_mem k hx'')
      · rw [if_neg hc]
        have hc' : Controller.tallyKeyLt votes k h = false := Bool.of_not_eq_true hc
        have hhr := ih h h (List.mem_cons_self h t)
        rcases List.mem_cons.mp hx with rfl | hx'
        · exact hhr
        · rcases List.mem_cons.mp hx' with rfl | hx''
          · exact tallyKeyLt_notLt_trans votes x h _ hc' hhr
          · exact ih h x (List.mem_cons_of_mem h hx'')

/-- The tally key list is nonempty as soon as a vote was recorded. -/
theorem voteCountKeys_ne_nil (votes : List (ℕ × ℕ)) (hv : votes ≠ []) :
    Controller.voteCountKeys votes ≠ [] := by
  have step : ∀ (t : List (ℕ × ℕ)) (ks : List ℕ), ks ≠ [] →
      t.foldl (fun ks e => if ks.contains e.2 then ks else ks ++ [e.2]) ks ≠ [] := by
    intro t
    induction t with
    | nil => intro ks hks; exact hks
    | cons e t ih =>
        intro ks hks
        rw [List.foldl_cons]
        apply ih
        by_cases hc : ks.contains e.2 = true
        · rw [if_pos hc]; exact hks
        · rw [if_neg hc]; exact fun hnil => by simp at hnil
  cases votes with
  | nil => exact absurd rfl hv
  | cons e t =>
      unfold Controller.voteCountKeys
      rw [List.foldl_cons]
      apply step
      simp

/-- After `finalizeNet`, every record that is online carries exactly the
status the winner assignment dictates: MASTER for the winner's id, SLAVE
for every other id. -/
theorem finalizeNet_statuses_ok (now : ℤ) (w : ℕ) (n : DroneNetwork) :
    ((((Controller.finalizeNet now w n).allDrones).filter (is_online now 30)).all
      (fun d => d.status ==
        (if d.drone_id = w then DroneStatus.master else DroneStatus.slave))) = true := by
  rw [List.all_eq_true]
  intro d hd
  rw [List.mem_filter] at hd
  obtain ⟨hmem, hon⟩ := hd
  unfold DroneNetwork.allDrones at hmem
  rw [List.mem_map] at hmem
  obtain ⟨e, he, hde⟩ := hmem
  have hknown : (Controller.finalizeNet now w n).known_drones =
      n.known_drones.map (fun e =>
        match e.2 with
        | Slot.self => e
        | Slot.peer d =>
            if is_online now 30 d then
              (e.1, Slot.peer { d with status :=
                if d.drone_id = w then DroneStatus.master else DroneStatus.slave })
            else e) := rfl
  rw [hknown, List.mem_map] at he
  obtain ⟨e₀, he₀, hge⟩ := he
  cases hslot : e₀.2 with
  | self =>
      rw [hslot] at hge
      have hee : e₀ = e := by simpa using hge
      rw [← hee, hslot] at hde
      have hd' : d = (Controller.finalizeNet now w n).self_drone := hde.symm
      subst hd'
      have hid : (Controller.finalizeNet now w n).self_drone.drone_id =
          n.self_drone.drone_id := by
        unfold Controller.finalizeNet
        dsimp only
        exact selfId_setOnlineStatuses now w _
      have hst : (Controller.finalizeNet now w n).self_drone.status =
          (if w = n.self_drone.drone_id then DroneStatus.master else DroneStatus.slave) := by
        unfold Controller.finalizeNet DroneNetwork.setOnlineStatuses
        dsimp only
        split <;> rfl
      rw [hst, hid]
      by_cases hw : w = n.self_drone.drone_id
      · rw [if_pos hw, if_pos hw.symm]; rfl
      · rw [if_neg hw, if_neg (fun hc => hw hc.symm)]; rfl
  | peer d₀ =>
      rw [hslot] at hge
      by_cases hon₀ : is_online now 30 d₀ = true
      · have hee : (e₀.1, Slot.peer { d₀ with status :=
            if d₀.drone_id = w then DroneStatus.master else DroneStatus.slave }) = e := by
          simpa [hon₀] using hge
        rw [← hee] at hde
        have hd' : d = { d₀ with status :=
            if d₀.drone_id = w then DroneStatus.master else DroneStatus.slave } := hde.symm
        subst hd'
        dsimp only
        exact beq_self_eq_true _
      · have hee : e₀ = e := by simpa [hon₀] using hge
        rw [← hee, hslot] at hde
        have hd' : d = d₀ := hde.symm
        subst hd'
        exact absurd hon hon₀

/-- An in-progress election over `exNet`: started at 0 with timeout 5,
votes recorded 5→5 and 7→7. -/
def exElection : Controller :=
  { exCtrl exNet with
    election_in_progress := true, election_start_time := 0,
    election_timeout := 5, election_votes := [(5, 5), (7, 7)] }

/-- **C5** (counterexample).  At `now = 5` we have
`now - startTime = 5 = electionTimeout`, i.e. `now - startTime >=
electionTimeout` holds — yet `process_election_results` does nothing (the
election stays in progress, no finalization): the code requires the
*strict* inequality `now - startTime > electionTimeout`. -/
theorem C5_counterexample :
    exElection.election_timeout ≤ 5 - exElection.election_start_time ∧
      Controller.process_election_results 5 exElection = (exElection, []) := by
  exact ⟨by decide, rfl⟩

/-- **C5** (amended).  A node finalizes exactly when an election is in
progress and `now - startTime` *strictly* exceeds `electionTimeout` (never
earlier, regardless of votes); at finalization `masterId` becomes the
tally winner, the election state is fully reset, and every online record's
status becomes MASTER (winner's id) or SLAVE; the winner is the node's own
id when no votes were recorded, and otherwise a recorded candidate beating
every candidate on (more votes, then lower id). -/
theorem C5_finalization_amended (now : ℤ) (c : Controller) :
    (¬(c.election_in_progress = true ∧
        c.election_timeout < now - c.election_start_time) →
      Controller.process_election_results now c = (c, [])) ∧
    (c.election_in_progress = true →
      c.election_timeout < now - c.election_start_time →
      ((Controller.process_election_results now c).1.net.master_drone_id =
          some (Controller.electionWinner c.election_votes c.net.get_self_id) ∧
        (Controller.process_election_results now c).1.election_in_progress = false ∧
        (Controller.process_election_results now c).1.election_votes = [] ∧
        (Controller.process_election_results now c).1.has_voted = false ∧
        ((((Controller.process_election_results now c).1.net.allDrones).filter
            (is_online now 30)).all
          (fun d => d.status ==
            (if d.drone_id =
                Controller.electionWinner c.election_votes c.net.get_self_id
              then DroneStatus.master else DroneStatus.slave))) = true)) ∧
    (c.election_votes = [] →
      Controller.electionWinner c.election_votes c.net.get_self_id =
        c.net.get_self_id) ∧
    (c.election_votes ≠ [] →
      decide (Controller.electionWinner c.election_votes c.net.get_self_id ∈
        Controller.voteCountKeys c.election_votes) = true) ∧
    ((Controller.voteCountKeys c.election_votes).all (fun k =>
      decide (Controller.voteCount c.election_votes k <
        Controller.voteCount c.election_votes
          (Controller.electionWinner c.election_votes c.net.get_self_id)) ||
      ((Controller.voteCount c.election_votes
          (Controller.electionWinner c.election_votes c.net.get_self_id) ==
        Controller.voteCount c.election_votes k) &&
        decide (Controller.electionWinner c.election_votes c.net.get_self_id ≤ k)))) =
      true := by
  refine ⟨?_, ?_, ?_, ?_, ?_⟩
  · intro hneg
    unfold Controller.process_election_results
    have hcond : (c.election_in_progress &&
        decide (c.election_timeout < now - c.election_start_time)) = false := by
      by_cases hA : c.election_in_progress = true
      · by_cases hB : c.election_timeout < now - c.election_start_time
        · exact absurd ⟨hA, hB⟩ hneg
        · rw [hA, decide_eq_false hB]; rfl
      · rw [Bool.not_eq_true] at hA
        rw [hA]; rfl
    rw [hcond, if_neg (fun hc => Bool.noConfusion hc)]
  · intro hA hB
    unfold Controller.process_election_results
    rw [hA, decide_eq_true hB, if_pos (show (true && true) = true from rfl)]
    unfold Controller.finalize_election
    rw [hA]
    rw [if_neg (fun hc : (!true) = true => Bool.noConfusion hc)]
    exact ⟨rfl, rfl, rfl, rfl, finalizeNet_statuses_ok now _ c.net⟩
  · intro hv
    rw [hv]
    rfl
  · intro hv
    have hne := voteCountKeys_ne_nil c.election_votes hv
    unfold Controller.electionWinner
    cases hkeys : Controller.voteCountKeys c.election_votes with
    | nil => exact absurd hkeys hne
    | cons h t =>
        apply decide_eq_true
        dsimp only
        exact tallyFold_mem c.election_votes t h
  · unfold Controller.electionWinner
    cases hkeys : Controller.voteCountKeys c.election_votes with
    | nil => rfl
    | cons h t =>
        dsimp only
        rw [List.all_eq_true]
        intro k hk
        have hmin := tallyFold_min c.election_votes t h k hk
        simp only [Controller.tallyKeyLt, Bool.or_eq_false_iff, Bool.and_eq_false_iff,
          decide_eq_false_iff_not, beq_eq_false_iff_ne, not_lt, Bool.or_eq_true,
          Bool.and_eq_true, decide_eq_true_eq, beq_iff_eq] at hmin ⊢
        omega

/-- **C5** witness: the amended theorem applied at the concrete in-progress
election one tick past the strict timeout — winner 5 (tie on one vote
each, lowest id) is installed and the election state resets. -/
theorem C5_finalization_witness :
    (Controller.process_election_results 6 exElection).1.net.master_drone_id = some 5 ∧
      (Controller.process_election_results 6 exElection).1.election_in_progress = false := by
  have h := (C5_finalization_amended 6 exElection).2.1 rfl (by decide)
  have hw : Controller.electionWinner exElection.election_votes
      exElection.net.get_self_id = 5 := by decide
  exact ⟨hw ▸ h.1, h.2.1⟩

/-! ### The self-record invariant (C7)

The spec's invariant over a Network View: the record map is a genuine map
(no duplicate keys), exactly one entry aliases the self record, that entry
is keyed by the node's current id, no peer record claims `isSelf`, and the
self record itself carries `isSelf`. -/

/-- `true` on peer slots whose record does not claim `isSelf`. -/
def Slot.peerNotSelf : Slot → Bool
  | .self => true
  | .peer d => !d.is_self

def invb (n : DroneNetwork) : Bool :=
  decide ((n.known_drones.map Prod.fst).Nodup) &&
  (n.known_drones.countP (fun e => e.2.isSelfSlot) == 1) &&
  n.known_drones.all (fun e => !e.2.isSelfSlot || (e.1 == n.get_self_id)) &&
  n.known_drones.all (fun e => e.2.peerNotSelf) &&
  n.self_drone.is_self

/-- The invariant in structured form. -/
def InvP (n : DroneNetwork) : Prop :=
  (n.known_drones.map Prod.fst).Nodup ∧
  n.known_drones.countP (fun e => e.2.isSelfSlot) = 1 ∧
  (∀ e ∈ n.known_drones, e.2.isSelfSlot = true → e.1 = n.get_self_id) ∧
  (∀ e ∈ n.known_drones, ∀ d, e.2 = Slot.peer d → d.is_self = false) ∧
  n.self_drone.is_self = true

theorem peerNotSelf_iff (s : Slot) :
    Slot.peerNotSelf s = true ↔ ∀ d, s = Slot.peer d → d.is_self = false := by
  cases s <;> simp [Slot.peerNotSelf]

theorem invb_iff (n : DroneNetwork) : invb n = true ↔ InvP n := by
  unfold invb InvP
  simp only [Bool.and_eq_true, decide_eq_true_eq, beq_iff_eq, List.all_eq_true,
    Bool.or_eq_true, Bool.not_eq_true']
  constructor
  · rintro ⟨⟨⟨⟨h1, h2⟩, h3⟩, h4⟩, h5⟩
    refine ⟨h1, h2, ?_, ?_, h5⟩
    · intro e he hs
      rcases h3 e he with hfalse | hkey
      · rw [hs] at hfalse; exact Bool.noConfusion hfalse
      · exact hkey
    · intro e he d hd
      exact (peerNotSelf_iff e.2).mp (h4 e he) d hd
  · rintro ⟨h1, h2, h3, h4, h5⟩
    refine ⟨⟨⟨⟨h1, h2⟩, ?_⟩, ?_⟩, h5⟩
    · intro e he
      by_cases hs : e.2.isSelfSlot = true
      · exact Or.inr (h3 e he hs)
      · exact Or.inl (Bool.of_not_eq_true hs)
    · intro e he
      exact (peerNotSelf_iff e.2).mpr (h4 e he)

/-- Under distinct keys, two entries sharing a key are the same entry. -/
theorem key_unique {l : List (ℕ × Slot)} (hnd : (l.map Prod.fst).Nodup)
    {e₁ e₂ : ℕ × Slot} (h₁ : e₁ ∈ l) (h₂ : e₂ ∈ l) (hk : e₁.1 = e₂.1) :
    e₁ = e₂ := by
  induction l with
  | nil => cases h₁
  | cons a t ih =>
      rw [List.map_cons, List.nodup_cons] at hnd
      rcases List.mem_cons.mp h₁ with rfl | h₁'
      · rcases List.mem_cons.mp h₂ with rfl | h₂'
        · rfl
        · exact absurd (hk ▸ List.mem_map_of_mem Prod.fst h₂') hnd.1
      · rcases List.mem_cons.mp h₂ with rfl | h₂'
        · exact absurd (hk ▸ List.mem_map_of_mem Prod.fst h₁') hnd.1
        · exact ih hnd.2 h₁' h₂'

/-- Under the invariant, the slot found at the current self id is the
self alias. -/
theorem getSlot_self_of_inv {n : DroneNetwork} (h : InvP n) :
    n.getSlot n.get_self_id = some Slot.self := by
  obtain ⟨hnd, hcnt, hkey, _, _⟩ := h
  have hpos : 0 < n.known_drones.countP (fun e => e.2.isSelfSlot) := by omega
  obtain ⟨e, he, hs⟩ := List.countP_pos_iff.mp hpos
  have hek : e.1 = n.get_self_id := hkey e he hs
  have hfind : ∃ e', n.known_drones.find? (fun x => x.1 == n.get_self_id) = some e' := by
    rw [← Option.isSome_iff_exists, List.find?_isSome]
    exact ⟨e, he, by rw [hek]; exact beq_self_eq_true _⟩
  obtain ⟨e', hfind⟩ := hfind
  have he'm := List.mem_of_find?_eq_some hfind
  have he'k := List.find?_some hfind
  have he'k' : e'.1 = n.get_self_id := beq_iff_eq.mp he'k
  have hee : e = e' := key_unique hnd he he'm (by rw [hek, he'k'])
  unfold DroneNetwork.getSlot
  rw [hfind]
  simp only [Option.map_some']
  have : e'.2 = Slot.self := by
    rw [← hee]
    cases hslot : e.2 with
    | self => rfl
    | peer d => rw [hslot] at hs; exact Bool.noConfusion hs
  rw [this]

/-- Invert a successful slot lookup into an entry of the map. -/
theorem getSlot_mem {n : DroneNetwork} {o : ℕ} {s : Slot}
    (h : n.getSlot o = some s) :
    ∃ e ∈ n.known_drones, e.1 = o ∧ e.2 = s := by
  unfold DroneNetwork.getSlot at h
  cases hf : n.known_drones.find? (fun e => e.1 == o) with
  | none => rw [hf] at h; exact Option.noConfusion h
  | some e =>
      rw [hf, Option.map_some'] at h
      refine ⟨e, List.mem_of_find?_eq_some hf, ?_, Option.some.inj h⟩
      have := List.find?_some hf
      exact beq_iff_eq.mp this

/-- Changing only the master id, the established flag, the conflict log or
non-identity fields of the self record preserves the invariant. -/
theorem InvP_congr {n n' : DroneNetwork}
    (hk : n'.known_drones = n.known_drones)
    (hid : n'.self_drone.drone_id = n.self_drone.drone_id)
    (hs : n'.self_drone.is_self = n.self_drone.is_self)
    (h : InvP n) : InvP n' := by
  obtain ⟨h1, h2, h3, h4, h5⟩ := h
  refine ⟨by rw [hk]; exact h1, by rw [hk]; exact h2, ?_, ?_, by rw [hs]; exact h5⟩
  · intro e he hsl
    rw [hk] at he
    show e.1 = n'.self_drone.drone_id
    rw [hid]
    exact h3 e he hsl
  · intro e he d hd
    rw [hk] at he
    exact h4 e he d hd

/-- A key-preserving, slot-kind-preserving, `isSelf`-sound entrywise map
preserves the invariant. -/
theorem InvP_mapLike {n n' : DroneNetwork} (g : ℕ × Slot → ℕ × Slot)
    (hknown : n'.known_drones = n.known_drones.map g)
    (hid : n'.self_drone.drone_id = n.self_drone.drone_id)
    (hself : n'.self_drone.is_self = n.self_drone.is_self)
    (hkey : ∀ e, (g e).1 = e.1)
    (hkind : ∀ e, (g e).2.isSelfSlot = e.2.isSelfSlot)
    (hpeer : ∀ e ∈ n.known_drones, ∀ d', (g e).2 = Slot.peer d' → d'.is_self = false)
    (h : InvP n) : InvP n' := by
  obtain ⟨h1, h2, h3, h4, h5⟩ := h
  refine ⟨?_, ?_, ?_, ?_, by rw [hself]; exact h5⟩
  · rw [hknown, List.map_map, show Prod.fst ∘ g = Prod.fst from funext hkey]
    exact h1
  · rw [hknown, List.countP_map,
      show ((fun e : ℕ × Slot => e.2.isSelfSlot) ∘ g) =
        (fun e : ℕ × Slot => e.2.isSelfSlot) from funext fun e => hkind e]
    exact h2
  · intro e' he' hsl
    rw [hknown, List.mem_map] at he'
    obtain ⟨e, he, rfl⟩ := he'
    show (g e).1 = n'.self_drone.drone_id
    rw [hkey e, hid]
    apply h3 e he
    rw [← hkind e]
    exact hsl
  · intro e' he' d' hd'
    rw [hknown, List.mem_map] at he'
    obtain ⟨e, he, rfl⟩ := he'
    exact hpeer e he d' hd'

/-- Filtering that keeps every self-alias entry preserves the invariant. -/
theorem InvP_filter {n n' : DroneNetwork} (q : ℕ × Slot → Bool)
    (hknown : n'.known_drones = n.known_drones.filter q)
    (hid : n'.self_drone.drone_id = n.self_drone.drone_id)
    (hself : n'.self_drone.is_self = n.self_drone.is_self)
    (hkeep : ∀ e ∈ n.known_drones, e.2.isSelfSlot = true → q e = true)
    (h : InvP n) : InvP n' := by
  obtain ⟨h1, h2, h3, h4, h5⟩ := h
  refine ⟨?_, ?_, ?_, ?_, by rw [hself]; exact h5⟩
  · rw [hknown]
    exact h1.sublist ((List.filter_sublist _).map Prod.fst)
  · rw [hknown, List.countP_filter]
    rw [← h2]
    apply List.countP_congr
    intro e he
    cases hsl : e.2.isSelfSlot with
    | false => rfl
    | true => rw [hkeep e he hsl]; rfl
  · intro e he hsl
    rw [hknown, List.mem_filter] at he
    show e.1 = n'.self_drone.drone_id
    rw [hid]
    exact h3 e he.1 hsl
  · intro e he d hd
    rw [hknown, List.mem_filter] at he
    exact h4 e he.1 d hd

/-- Appending a fresh-keyed peer record that does not claim `isSelf`
preserves the invariant. -/
theorem InvP_appendPeer {n n' : DroneNetwork} (i : ℕ) (d : DroneState)
    (hknown : n'.known_drones = n.known_drones ++ [(i, Slot.peer d)])
    (hid : n'.self_drone.drone_id = n.self_drone.drone_id)
    (hself : n'.self_drone.is_self = n.self_drone.is_self)
    (hfresh : n.hasKey i = false)
    (hd : d.is_self = false)
    (h : InvP n) : InvP n' := by
  obtain ⟨h1, h2, h3, h4, h5⟩ := h
  have hnotin : i ∉ n.known_drones.map Prod.fst := by
    intro hmem
    rw [List.mem_map] at hmem
    obtain ⟨e, he, hk⟩ := hmem
    have : n.hasKey i = true := by
      unfold DroneNetwork.hasKey
      rw [List.any_eq_true]
      exact ⟨e, he, by rw [hk]; exact beq_self_eq_true _⟩
    rw [this] at hfresh
    exact Bool.noConfusion hfresh
  refine ⟨?_, ?_, ?_, ?_, by rw [hself]; exact h5⟩
  · rw [hknown, List.map_append]
    rw [List.nodup_append]
    refine ⟨h1, List.nodup_singleton i, ?_⟩
    intro a ha hb
    simp only [List.map_cons, List.map_nil, List.mem_singleton] at hb
    subst hb
    exact hnotin ha
  · rw [hknown, List.countP_append, h2]
    rfl
  · intro e he hsl
    rw [hknown, List.mem_append] at he
    rcases he with he | he
    · show e.1 = n'.self_drone.drone_id
      rw [hid]
      exact h3 e he hsl
    · rw [List.mem_singleton] at he
      subst he
      exact Bool.noConfusion hsl
  · intro e he d' hd'
    rw [hknown, List.mem_append] at he
    rcases he with he | he
    · exact h4 e he d' hd'
    · rw [List.mem_singleton] at he
      subst he
      rw [Slot.peer.injEq] at hd'
      rw [← hd']
      exact hd

/-- With distinct keys, a present key occurs in exactly one entry. -/
theorem countP_key_eq_one {l : List (ℕ × Slot)} (hnd : (l.map Prod.fst).Nodup)
    (k : ℕ) (hk : l.any (fun e => e.1 == k) = true) :
    l.countP (fun e => e.1 == k) = 1 := by
  induction l with
  | nil => cases hk
  | cons a t ih =>
      rw [List.map_cons, List.nodup_cons] at hnd
      rw [List.countP_cons]
      by_cases ha : (a.1 == k) = true
      · rw [if_pos ha]
        have hzero : t.countP (fun e => e.1 == k) = 0 := by
          rw [List.countP_eq_zero]
          intro e he hek
          apply hnd.1
          rw [List.mem_map]
          exact ⟨e, he, by rw [beq_iff_eq.mp hek, beq_iff_eq.mp ha]⟩
        omega
      · rw [if_neg ha, Nat.add_zero]
        apply ih hnd.2
        rw [List.any_cons] at hk
        rcases Bool.or_eq_true_iff.mp hk with hk' | hk'
        · exact absurd hk' ha
        · exact hk'

/-- Re-keying the self alias from `o` (where the alias sits) to `nw`
preserves the invariant: the old entry is deleted, the alias is stored at
`nw` (overwriting any peer there), and the self record's id becomes `nw`. -/
theorem InvP_aliasMove {n n' : DroneNetwork} (o nw : ℕ)
    (hslot : n.getSlot o = some Slot.self)
    (hknown : n'.known_drones =
      DroneNetwork.dictSet nw Slot.self (DroneNetwork.dictDel o n.known_drones))
    (hid : n'.self_drone.drone_id = nw)
    (hself : n'.self_drone.is_self = n.self_drone.is_self)
    (h : InvP n) : InvP n' := by
  obtain ⟨h1, h2, h3, h4, h5⟩ := h
  obtain ⟨e₀, he₀, he₀k, he₀s⟩ := getSlot_mem hslot
  have ho : o = n.get_self_id := by
    rw [← he₀k]
    exact h3 e₀ he₀ (by rw [he₀s]; rfl)
  have hl₁sub : List.Sublist (DroneNetwork.dictDel o n.known_drones) n.known_drones :=
    List.filter_sublist _
  have hl₁nd : ((DroneNetwork.dictDel o n.known_drones).map Prod.fst).Nodup :=
    h1.sublist (hl₁sub.map Prod.fst)
  have hl₁self : (DroneNetwork.dictDel o n.known_drones).countP
      (fun e => e.2.isSelfSlot) = 0 := by
    unfold DroneNetwork.dictDel
    rw [List.countP_filter, List.countP_eq_zero]
    intro e he
    cases hs : e.2.isSelfSlot with
    | false => simp [hs]
    | true =>
        have hek := h3 e he hs
        simp [hs, hek, ho]
  have hl₁noself : ∀ e ∈ DroneNetwork.dictDel o n.known_drones,
      e.2.isSelfSlot = false := fun e he =>
    Bool.of_not_eq_true (List.countP_eq_zero.mp hl₁self e he)
  unfold DroneNetwork.dictSet at hknown
  by_cases hmem : ((DroneNetwork.dictDel o n.known_drones).any
      fun e => e.1 == nw) = true
  · rw [if_pos hmem] at hknown
    refine ⟨?_, ?_, ?_, ?_, by rw [hself]; exact h5⟩
    · rw [hknown, List.map_map]
      have hfst : (Prod.fst ∘ fun e : ℕ × Slot =>
          if e.1 == nw then (nw, Slot.self) else e) = Prod.fst := by
        funext e
        simp only [Function.comp_apply]
        by_cases hc : (e.1 == nw) = true
        · rw [if_pos hc]; exact (beq_iff_eq.mp hc).symm
        · rw [if_neg hc]
      rw [hfst]
      exact hl₁nd
    · rw [hknown, List.countP_map]
      have hcnt : (DroneNetwork.dictDel o n.known_drones).countP
          ((fun e : ℕ × Slot => e.2.isSelfSlot) ∘ fun e =>
            if e.1 == nw then (nw, Slot.self) else e) =
          (DroneNetwork.dictDel o n.known_drones).countP (fun e => e.1 == nw) := by
        apply List.countP_congr
        intro e he
        simp only [Function.comp_apply]
        by_cases hc : (e.1 == nw) = true
        · rw [if_pos hc, hc]; rfl
        · rw [if_neg hc, hl₁noself e he, Bool.of_not_eq_true hc]
      rw [hcnt]
      exact countP_key_eq_one hl₁nd nw hmem
    · intro e' he' hsl
      rw [hknown, List.mem_map] at he'
      obtain ⟨e, he, rfl⟩ := he'
      show (if e.1 == nw then (nw, Slot.self) else e).1 = _
      by_cases hc : (e.1 == nw) = true
      · rw [if_pos hc]
        exact hid.symm
      · rw [if_neg hc]
        rw [if_neg hc] at hsl
        rw [hl₁noself e he] at hsl
        exact Bool.noConfusion hsl
    · intro e' he' d hd
      rw [hknown, List.mem_map] at he'
      obtain ⟨e, he, rfl⟩ := he'
      by_cases hc : (e.1 == nw) = true
      · rw [if_pos hc] at hd
        exact Slot.noConfusion hd
      · rw [if_neg hc] at hd
        exact h4 e (hl₁sub.subset he) d hd
  · rw [if_neg hmem] at hknown
    have hnotin : nw ∉ (DroneNetwork.dictDel o n.known_drones).map Prod.fst := by
      intro hmem'
      rw [List.mem_map] at hmem'
      obtain ⟨e, he, hk⟩ := hmem'
      apply hmem
      rw [List.any_eq_true]
      exact ⟨e, he, by rw [hk]; exact beq_self_eq_true _⟩
    refine ⟨?_, ?_, ?_, ?_, by rw [hself]; exact h5⟩
    · rw [hknown, List.map_append, List.nodup_append]
      refine ⟨hl₁nd, List.nodup_singleton nw, ?_⟩
      intro a ha hb
      simp only [List.map_cons, List.map_nil, List.mem_singleton] at hb
      subst hb
      exact hnotin ha
    · rw [hknown, List.countP_append, hl₁self]
      rfl
    · intro e he hsl
      rw [hknown, List.mem_append] at he
      rcases he with he | he
      · rw [hl₁noself e he] at hsl
        exact Bool.noConfusion hsl
      · rw [List.mem_singleton] at he
        subst he
        exact hid.symm
    · intro e he d hd
      rw [hknown, List.mem_append] at he
      rcases he with he | he
      · exact h4 e (hl₁sub.subset he) d hd
      · rw [List.mem_singleton] at he
        subst he
        exact Slot.noConfusion hd

/-- Re-keying a *peer* record from `o` to `nw ≠ selfId` preserves the
invariant: the self alias (keyed `selfId ∉ {o, nw}`) is untouched, and the
moved record stays a non-`isSelf` peer. -/
theorem InvP_peerRekey {n n' : DroneNetwork} (o nw : ℕ) (d₀ : DroneState)
    (hslot : n.getSlot o = some (Slot.peer d₀))
    (hnw : nw ≠ n.get_self_id)
    (hknown : n'.known_drones =
      DroneNetwork.dictSet nw (Slot.peer { d₀ with drone_id := nw })
        (DroneNetwork.dictDel o n.known_drones))
    (hid : n'.self_drone.drone_id = n.self_drone.drone_id)
    (hself : n'.self_drone.is_self = n.self_drone.is_self)
    (h : InvP n) : InvP n' := by
  have ho : o ≠ n.get_self_id := by
    intro hoe
    rw [hoe, getSlot_self_of_inv h] at hslot
    exact Slot.noConfusion (Option.some.inj hslot)
  have hd₀ : d₀.is_self = false := by
    obtain ⟨e₀, he₀, _, he₀s⟩ := getSlot_mem hslot
    exact h.2.2.2.1 e₀ he₀ d₀ he₀s
  obtain ⟨h1, h2, h3, h4, h5⟩ := h
  have hl₁sub : List.Sublist (DroneNetwork.dictDel o n.known_drones) n.known_drones :=
    List.filter_sublist _
  have hl₁nd : ((DroneNetwork.dictDel o n.known_drones).map Prod.fst).Nodup :=
    h1.sublist (hl₁sub.map Prod.fst)
  have hl₁self : (DroneNetwork.dictDel o n.known_drones).countP
      (fun e => e.2.isSelfSlot) = 1 := by
    unfold DroneNetwork.dictDel
    rw [List.countP_filter, ← h2]
    apply List.countP_congr
    intro e he
    dsimp only
    cases hs : e.2.isSelfSlot with
    | false => simp [hs]
    | true =>
        have hek := h3 e he hs
        have hne : (n.get_self_id == o) = false :=
          beq_eq_false_iff_ne.mpr (fun hc => ho hc.symm)
        rw [hek, hne]
        simp
  have hl₁key : ∀ e ∈ DroneNetwork.dictDel o n.known_drones,
      e.2.isSelfSlot = true → e.1 = n.get_self_id := fun e he hs =>
    h3 e (hl₁sub.subset he) hs
  unfold DroneNetwork.dictSet at hknown
  by_cases hmem : ((DroneNetwork.dictDel o n.known_drones).any
      fun e => e.1 == nw) = true
  · rw [if_pos hmem] at hknown
    refine ⟨?_, ?_, ?_, ?_, by rw [hself]; exact h5⟩
    · rw [hknown, List.map_map]
      have hfst : (Prod.fst ∘ fun e : ℕ × Slot =>
          if e.1 == nw then (nw, Slot.peer { d₀ with drone_id := nw }) else e) =
          Prod.fst := by
        funext e
        simp only [Function.comp_apply]
        by_cases hc : (e.1 == nw) = true
        · rw [if_pos hc]; exact (beq_iff_eq.mp hc).symm
        · rw [if_neg hc]
      rw [hfst]
      exact hl₁nd
    · rw [hknown, List.countP_map]
      rw [← hl₁self]
      apply List.countP_congr
      intro e he
      simp only [Function.comp_apply]
      by_cases hc : (e.1 == nw) = true
      · have hsl : e.2.isSelfSlot = false := by
          cases hs : e.2.isSelfSlot with
          | false => rfl
          | true =>
              have hkey := hl₁key e he hs
              rw [hkey] at hc
              exact absurd (beq_iff_eq.mp hc).symm hnw
        rw [if_pos hc, hsl]
        rfl
      · rw [if_neg hc]
    · intro e' he' hsl
      rw [hknown, List.mem_map] at he'
      obtain ⟨e, he, rfl⟩ := he'
      by_cases hc : (e.1 == nw) = true
      · rw [if_pos hc] at hsl
        exact Bool.noConfusion hsl
      · rw [if_neg hc] at hsl ⊢
        show e.1 = n'.self_drone.drone_id
        rw [hid]
        exact hl₁key e he hsl
    · intro e' he' d hd
      rw [hknown, List.mem_map] at he'
      obtain ⟨e, he, rfl⟩ := he'
      by_cases hc : (e.1 == nw) = true
      · rw [if_pos hc] at hd
        rw [Slot.peer.injEq] at hd
        rw [← hd]
        exact hd₀
      · rw [if_neg hc] at hd
        exact h4 e (hl₁sub.subset he) d hd
  · rw [if_neg hmem] at hknown
    have hnotin : nw ∉ (DroneNetwork.dictDel o n.known_drones).map Prod.fst := by
      intro hmem'
      rw [List.mem_map] at hmem'
      obtain ⟨e, he, hk⟩ := hmem'
      apply hmem
      rw [List.any_eq_true]
      exact ⟨e, he, by rw [hk]; exact beq_self_eq_true _⟩
    refine ⟨?_, ?_, ?_, ?_, by rw [hself]; exact h5⟩
    · rw [hknown, List.map_append, List.nodup_append]
      refine ⟨hl₁nd, List.nodup_singleton nw, ?_⟩
      intro a ha hb
      simp only [List.map_cons, List.map_nil, List.mem_singleton] at hb
      subst hb
      exact hnotin ha
    · rw [hknown, List.countP_append, hl₁self]
      rfl
    · intro e he hsl
      rw [hknown, List.mem_append] at he
      rcases he with he | he
      · show e.1 = n'.self_drone.drone_id
        rw [hid]
        exact hl₁key e he hsl
      · rw [List.mem_singleton] at he
        subst he
        exact Bool.noConfusion hsl
    · intro e he d hd
      rw [hknown, List.mem_append] at he
      rcases he with he | he
      · exact h4 e (hl₁sub.subset he) d hd
      · rw [List.mem_singleton] at he
        subst he
        rw [Slot.peer.injEq] at hd
        rw [← hd]
        exact hd₀

theorem applyUpd_drone_id (now : ℤ) (st : DroneStatus) (pos : Option (ℤ × ℤ × ℤ))
    (bat sig : Option ℤ) (d : DroneState) :
    (DroneNetwork.applyUpd now st pos bat sig d).drone_id = d.drone_id := by
  unfold DroneNetwork.applyUpd update_last_seen update_battery update_position
  rcases pos with _ | p <;> rcases bat with _ | b <;> rcases sig with _ | s <;>
    dsimp only <;> first | rfl | (split <;> rfl)

theorem applyUpd_is_self (now : ℤ) (st : DroneStatus) (pos : Option (ℤ × ℤ × ℤ))
    (bat sig : Option ℤ) (d : DroneState) :
    (DroneNetwork.applyUpd now st pos bat sig d).is_self = d.is_self := by
  unfold DroneNetwork.applyUpd update_last_seen update_battery update_position
  rcases pos with _ | p <;> rcases bat with _ | b <;> rcases sig with _ | s <;>
    dsimp only <;> first | rfl | (split <;> rfl)

/-- Record mutation through the map with an identity- and `isSelf`-
preserving update keeps the invariant. -/
theorem InvP_updateVal (i : ℕ) (f : DroneState → DroneState) {n : DroneNetwork}
    (hfid : ∀ d, (f d).drone_id = d.drone_id)
    (hfself : ∀ d, (f d).is_self = d.is_self)
    (h : InvP n) : InvP (DroneNetwork.updateVal i f n) := by
  refine InvP_mapLike _ rfl ?_ ?_ ?_ ?_ ?_ h
  · unfold DroneNetwork.updateVal
    dsimp only
    split
    · exact hfid n.self_drone
    · rfl
  · unfold DroneNetwork.updateVal
    dsimp only
    split
    · exact hfself n.self_drone
    · rfl
  · intro e
    by_cases hc : (e.1 == i) = true
    · rw [if_pos hc]
    · rw [if_neg hc]
  · intro e
    by_cases hc : (e.1 == i) = true
    · rw [if_pos hc]
      cases e.2 <;> rfl
    · rw [if_neg hc]
  · intro e he d' hd'
    by_cases hc : (e.1 == i) = true
    · rw [if_pos hc] at hd'
      cases hslot : e.2 with
      | self => rw [hslot] at hd'; exact Slot.noConfusion hd'
      | peer d =>
          rw [hslot] at hd'
          dsimp only at hd'
          rw [Slot.peer.injEq] at hd'
          rw [← hd', hfself d]
          exact h.2.2.2.1 e he d hslot
    · rw [if_neg hc] at hd'
      exact h.2.2.2.1 e he d' hd'

theorem InvP_set_self_status (now : ℤ) (st : DroneStatus) {n : DroneNetwork}
    (h : InvP n) : InvP (DroneNetwork.set_self_status now st n) :=
  InvP_congr rfl rfl rfl h

theorem InvP_add_or_update (now : ℤ) (fresh : ℤ × ℤ × ℤ) (i : ℕ)
    (st : DroneStatus) (pos : Option (ℤ × ℤ × ℤ)) (bat sig : Option ℤ)
    {n : DroneNetwork} (h : InvP n) :
    InvP (DroneNetwork.add_or_update_drone now fresh i st pos bat sig n) := by
  unfold DroneNetwork.add_or_update_drone
  split
  · exact InvP_updateVal i _ (applyUpd_drone_id now st pos bat sig)
      (applyUpd_is_self now st pos bat sig) h
  · refine InvP_appendPeer i _ rfl rfl rfl ?_ ?_ h
    · next hc => exact Bool.of_not_eq_true hc
    · rw [applyUpd_is_self]
      rfl

theorem InvP_remove_drone (i : ℕ) {n : DroneNetwork} (h : InvP n) :
    InvP (DroneNetwork.remove_drone i n) := by
  unfold DroneNetwork.remove_drone
  split
  · next hcond =>
      refine InvP_filter _ rfl rfl rfl ?_ h
      intro e he hsl
      have hek := h.2.2.1 e he hsl
      rw [hek]
      rw [beq_eq_false_iff_ne.mpr (fun hc : n.get_self_id = i => hcond.2 hc.symm)]
      rfl
  · exact h

theorem InvP_cleanup (now timeout : ℤ) {n : DroneNetwork} (h : InvP n) :
    InvP (DroneNetwork.cleanup_offline_drones now timeout n) := by
  refine InvP_filter _ rfl rfl rfl ?_ h
  intro e he hsl
  have hek := h.2.2.1 e he hsl
  rw [hek, beq_self_eq_true]
  rfl

theorem InvP_rekeySelf (nw : ℕ) {n : DroneNetwork} (h : InvP n) :
    InvP (DroneNetwork.rekeySelf n.get_self_id nw n) :=
  InvP_aliasMove n.get_self_id nw (getSlot_self_of_inv h) rfl rfl rfl h

theorem InvP_resolve (draws : ℕ → ℕ) (ts : ℕ) {n : DroneNetwork} (h : InvP n) :
    InvP (DroneNetwork.resolve_id_conflict draws ts n).2 := by
  unfold DroneNetwork.resolve_id_conflict
  cases DroneNetwork.findFresh draws n with
  | some v => exact InvP_rekeySelf v h
  | none => exact InvP_rekeySelf _ h

theorem InvP_setOnlineStatuses (now : ℤ) (mid : ℕ) {n : DroneNetwork}
    (h : InvP n) : InvP (DroneNetwork.setOnlineStatuses now mid n) := by
  refine InvP_mapLike _ rfl ?_ ?_ ?_ ?_ ?_ h
  · unfold DroneNetwork.setOnlineStatuses
    dsimp only
    split <;> rfl
  · unfold DroneNetwork.setOnlineStatuses
    dsimp only
    split <;> rfl
  · intro e
    cases e with
    | mk k s =>
        cases s with
        | self => rfl
        | peer d =>
            dsimp only
            split <;> rfl
  · intro e
    cases e with
    | mk k s =>
        cases s with
        | self => rfl
        | peer d =>
            dsimp only
            split <;> rfl
  · intro e he d' hd'
    cases e with
    | mk k s =>
        cases s with
        | self => exact Slot.noConfusion hd'
        | peer d =>
            dsimp only at hd'
            by_cases hon : is_online now 30 d = true
            · rw [if_pos hon] at hd'
              dsimp only at hd'
              rw [Slot.peer.injEq] at hd'
              rw [← hd']
              exact h.2.2.2.1 (k, Slot.peer d) he d rfl
            · rw [if_neg hon] at hd'
              dsimp only at hd'
              rw [Slot.peer.injEq] at hd'
              rw [← hd']
              exact h.2.2.2.1 (k, Slot.peer d) he d rfl

theorem InvP_elect_master (now : ℤ) {n : DroneNetwork} (h : InvP n) :
    InvP (DroneNetwork.elect_master now n).2 := by
  unfold DroneNetwork.elect_master
  cases n.get_online_drones now 30 with
  | nil => exact h
  | cons d t =>
      dsimp only
      exact InvP_setOnlineStatuses now _ (InvP_congr rfl rfl rfl h)

theorem InvP_update_network_status (now : ℤ) {n : DroneNetwork} (h : InvP n) :
    InvP (DroneNetwork.update_network_status now n) := by
  unfold DroneNetwork.update_network_status
  dsimp only
  split
  · split
    · exact InvP_elect_master now (InvP_congr rfl rfl rfl h)
    · exact InvP_congr rfl rfl rfl h
  · exact InvP_congr rfl rfl rfl h

theorem InvP_mergeSender (now : ℤ) (rnd : ℕ → ℤ × ℤ × ℤ) (c : Controller)
    (p : Msg) (h : InvP c.net) : InvP (Controller.mergeSender now rnd c p).net := by
  unfold Controller.mergeSender
  split
  · exact InvP_add_or_update now _ _ _ _ _ _ h
  · split
    · exact InvP_updateVal _ _ (fun d => rfl) (fun d => rfl) h
    · exact InvP_add_or_update now _ _ _ none none none h

theorem selfId_updateVal (i : ℕ) (f : DroneState → DroneState) (n : DroneNetwork)
    (hf : ∀ d, (f d).drone_id = d.drone_id) :
    (DroneNetwork.updateVal i f n).get_self_id = n.get_self_id := by
  unfold DroneNetwork.updateVal DroneNetwork.get_self_id
  dsimp only
  split
  · exact hf n.self_drone
  · rfl

theorem selfId_add_or_update (now : ℤ) (fresh : ℤ × ℤ × ℤ) (i : ℕ)
    (st : DroneStatus) (pos : Option (ℤ × ℤ × ℤ)) (bat sig : Option ℤ)
    (n : DroneNetwork) :
    (DroneNetwork.add_or_update_drone now fresh i st pos bat sig n).get_self_id =
      n.get_self_id := by
  unfold DroneNetwork.add_or_update_drone
  split
  · exact selfId_updateVal i _ n (fun d => applyUpd_drone_id now st pos bat sig d)
  · rfl

theorem selfId_mergeSender (now : ℤ) (rnd : ℕ → ℤ × ℤ × ℤ) (c : Controller)
    (p : Msg) :
    (Controller.mergeSender now rnd c p).net.get_self_id = c.net.get_self_id := by
  unfold Controller.mergeSender
  split
  · exact selfId_add_or_update now _ _ _ _ _ _ c.net
  · split
    · exact selfId_updateVal _ _ c.net (fun d => rfl)
    · exact selfId_add_or_update now _ _ _ none none none c.net

theorem InvP_handle_heartbeat (now : ℤ) (c : Controller) (p : Msg)
    (h : InvP c.net) : InvP (Controller.handle_heartbeat now c p).1.net := by
  unfold Controller.handle_heartbeat
  dsimp only
  repeat' split
  all_goals first
    | exact InvP_updateVal _ _ (fun d => rfl) (fun d => rfl) h
    | (rw [net_initiate]
       exact InvP_congr rfl rfl rfl
         (InvP_updateVal _ _ (fun d => rfl) (fun d => rfl) h))

theorem InvP_gossipFold (now : ℤ) (rnd : ℕ → ℤ × ℤ × ℤ) (ids : List ℕ) :
    ∀ acc : DroneNetwork × ℕ, InvP acc.1 →
      InvP ((ids.foldl (Controller.gossipStep now rnd) acc).1) := by
  induction ids with
  | nil => intro acc h; exact h
  | cons i t ih =>
      intro acc h
      rw [List.foldl_cons]
      apply ih
      unfold Controller.gossipStep
      split
      · exact h
      · split
        · exact InvP_updateVal _ _ (fun d => rfl) (fun d => rfl) h
        · exact InvP_add_or_update now _ i .connected none none none h

theorem InvP_handle_network_status (now : ℤ) (rnd : ℕ → ℤ × ℤ × ℤ)
    (c : Controller) (p : Msg) (h : InvP c.net) :
    InvP (Controller.handle_network_status now rnd c p).net := by
  unfold Controller.handle_network_status
  dsimp only
  split
  · split
    · exact InvP_congr rfl rfl rfl (InvP_gossipFold now rnd _ _ h)
    · exact InvP_gossipFold now rnd _ _ h
  · exact InvP_gossipFold now rnd _ _ h

theorem InvP_handle_icr (c : Controller) (p : Msg) (h : InvP c.net)
    (hok : ∀ o nw, p.params.old_id = some o → p.params.new_id = some nw →
      nw ≠ c.net.get_self_id ∨ o = c.net.get_self_id) :
    InvP (Controller.handle_id_conflict_resolution c p).net := by
  unfold Controller.handle_id_conflict_resolution
  cases ho : p.params.old_id with
  | none => exact h
  | some o =>
      cases hnw : p.params.new_id with
      | none => exact h
      | some nw =>
          dsimp only
          cases hslot : c.net.getSlot o with
          | none => exact h
          | some slot =>
              cases slot with
              | self => exact InvP_aliasMove o nw hslot rfl rfl rfl h
              | peer d₀ =>
                  have hnwne : nw ≠ c.net.get_self_id := by
                    rcases hok o nw ho hnw with h1 | h1
                    · exact h1
                    · exfalso
                      rw [h1, getSlot_self_of_inv h] at hslot
                      exact Slot.noConfusion (Option.some.inj hslot)
                  exact InvP_peerRekey o nw d₀ hslot hnwne rfl rfl rfl h

theorem net_handle_master_election (now : ℤ) (c : Controller) (p : Msg) :
    (Controller.handle_master_election now c p).1.net = c.net := by
  unfold Controller.handle_master_election
  dsimp only
  repeat' split
  all_goals first
    | rfl
    | rw [net_participate]

theorem InvP_handle_discovery_response (c : Controller) (p : Msg)
    (h : InvP c.net) : InvP (Controller.handle_discovery_response c p).net := by
  unfold Controller.handle_discovery_response
  split
  · exact InvP_updateVal _ _ (fun d => rfl) (fun d => rfl) h
  · exact h

theorem InvP_dispatchAction (now : ℤ) (rnd : ℕ → ℤ × ℤ × ℤ) (c : Controller)
    (p : Msg) (h : InvP c.net)
    (hok : p.action = "ID_CONFLICT_RESOLUTION" →
      ∀ o nw, p.params.old_id = some o → p.params.new_id = some nw →
        nw ≠ c.net.get_self_id ∨ o = c.net.get_self_id) :
    InvP (Controller.dispatchAction now rnd c p).1.net := by
  unfold Controller.dispatchAction
  repeat' split
  all_goals first
    | exact h
    | exact InvP_handle_discovery_response c p h
    | exact InvP_handle_heartbeat now c p h
    | exact InvP_handle_network_status now _ c p h
    | (rename_i hg; exact InvP_handle_icr c p h (hok (beq_iff_eq.mp hg)))
    | (rw [net_handle_master_election]; exact h)
    | exact InvP_updateVal _ _ (fun d => rfl) (fun d => rfl) h

theorem InvP_handle_received_packet (now : ℤ) (rnd : ℕ → ℤ × ℤ × ℤ)
    (draws : ℕ → ℕ) (ts : ℕ) (c : Controller) (p : Msg) (h : InvP c.net)
    (hok : p.action = "ID_CONFLICT_RESOLUTION" →
      ∀ o nw, p.params.old_id = some o → p.params.new_id = some nw →
        nw ≠ c.net.get_self_id ∨ o = c.net.get_self_id) :
    InvP (Controller.handle_received_packet now rnd draws ts c p).1.net := by
  unfold Controller.handle_received_packet
  dsimp only
  split
  · exact h
  · split
    · exact InvP_resolve draws ts h
    · apply InvP_update_network_status
      apply InvP_dispatchAction now rnd _ p (InvP_mergeSender now rnd c p h)
      intro hICR o nw ho hnw
      rw [selfId_mergeSender]
      exact hok hICR o nw ho hnw

/-- The controller state surrounding a Network View: timers, election
bookkeeping and vote tallies (`EnhancedStateController.__init__` minus the
view itself).  Used to close a bare view into a full controller so that a
packet can be processed against it. -/
structure ElectionState where
  master_election_interval : ℤ
  master_timeout : ℤ
  election_in_progress : Bool
  election_start_time : ℤ
  election_timeout : ℤ
  election_votes : List (ℕ × ℕ)
  has_voted : Bool
  last_master_heartbeat_time : ℤ
  last_master_check_time : ℤ
deriving DecidableEq

def ElectionState.toController (es : ElectionState) (n : DroneNetwork) : Controller :=
  { net := n, master_election_interval := es.master_election_interval,
    master_timeout := es.master_timeout,
    election_in_progress := es.election_in_progress,
    election_start_time := es.election_start_time,
    election_timeout := es.election_timeout,
    election_votes := es.election_votes, has_voted := es.has_voted,
    last_master_heartbeat_time := es.last_master_heartbeat_time,
    last_master_check_time := es.last_master_check_time }

/-- One Network View operation: every public mutator of `DroneNetwork`,
plus full processing of one received message (which reaches the view only
through those mutators). -/
inductive NetOp where
  | addOrUpdate (now : ℤ) (fresh : ℤ × ℤ × ℤ) (i : ℕ) (st : DroneStatus)
      (pos : Option (ℤ × ℤ × ℤ)) (bat : Option ℤ) (sig : Option ℤ)
  | setSelfStatus (now : ℤ) (st : DroneStatus)
  | removeDrone (i : ℕ)
  | cleanupOffline (now : ℤ) (timeout : ℤ)
  | resolveConflict (draws : ℕ → ℕ) (ts : ℕ)
  | electMaster (now : ℤ)
  | updateNetworkStatus (now : ℤ)
  | recvPacket (now : ℤ) (rnd : ℕ → ℤ × ℤ × ℤ) (draws : ℕ → ℕ) (ts : ℕ)
      (es : ElectionState) (p : Msg)

/-- Apply one operation to a view (for `recvPacket`, run the controller's
full `handle_received_packet` and project the resulting view). -/
def applyOp (op : NetOp) (n : DroneNetwork) : DroneNetwork :=
  match op with
  | .addOrUpdate now fresh i st pos bat sig =>
      DroneNetwork.add_or_update_drone now fresh i st pos bat sig n
  | .setSelfStatus now st => DroneNetwork.set_self_status now st n
  | .removeDrone i => DroneNetwork.remove_drone i n
  | .cleanupOffline now timeout => DroneNetwork.cleanup_offline_drones now timeout n
  | .resolveConflict draws ts => (DroneNetwork.resolve_id_conflict draws ts n).2
  | .electMaster now => (DroneNetwork.elect_master now n).2
  | .updateNetworkStatus now => DroneNetwork.update_network_status now n
  | .recvPacket now rnd draws ts es p =>
      (Controller.handle_received_packet now rnd draws ts (es.toController n) p).1.net

/-- The side condition of the amended claim: every operation qualifies
except processing an `ID_CONFLICT_RESOLUTION` whose `new_id` is the local
node's own current id while `old_id` is not (that one overwrites the
self entry of the map and destroys the invariant). -/
def opOkb (n : DroneNetwork) (op : NetOp) : Bool :=
  match op with
  | .recvPacket _ _ _ _ _ p =>
      if p.action == "ID_CONFLICT_RESOLUTION" then
        match p.params.old_id, p.params.new_id with
        | some o, some nw => (!(nw == n.get_self_id)) || (o == n.get_self_id)
        | _, _ => true
      else true
  | _ => true

/-- An `ID_CONFLICT_RESOLUTION` message rekeying known peer 7 to the
receiver's own id 5. -/
def exICR : Msg :=
  { timestamp := 0, drone_id := 9, destination_id := -1,
    current_state := .connected, action := "ID_CONFLICT_RESOLUTION",
    params := { MsgParams.empty with old_id := some 7, new_id := some 5 } }

/-- **C7** counterexample.  The two-node view `exNet` satisfies the
invariant (exactly one `is_self` record, keyed by the self id 5), but
after `handle_id_conflict_resolution` processes an
`ID_CONFLICT_RESOLUTION` with `old_id = 7` (a known peer) and
`new_id = 5` (the receiver's own id), the peer record is rekeyed onto
key 5, overwriting the alias entry of the self record: the resulting map
has no `is_self` record at all and the invariant is destroyed. -/
theorem C7_counterexample :
    invb exNet = true ∧
    invb ((Controller.handle_id_conflict_resolution (exCtrl exNet) exICR).net) = false := by
  exact ⟨by decide, by decide⟩

/-- **C7** (corrected).  The invariant — keys of `known_drones` are
distinct, exactly one entry is the `is_self` record, that entry is keyed
by the node's current self id, no peer record claims `is_self`, and the
self record itself has `is_self` — is preserved by every Network View
operation (`add_or_update_drone`, `set_self_status`, `remove_drone`,
`cleanup_offline_drones`, `resolve_id_conflict`, `elect_master`,
`update_network_status`) and by full processing of any received message,
EXCEPT an `ID_CONFLICT_RESOLUTION` whose `new_id` equals the local self
id while `old_id` does not (`opOkb` rules out exactly that message,
refuting the claim's "whatever oldId/newId it carries"). -/
theorem C7_self_invariant_amended (n : DroneNetwork) (op : NetOp)
    (hinv : invb n = true) (hok : opOkb n op = true) :
    invb (applyOp op n) = true := by
  rw [invb_iff] at hinv ⊢
  cases op with
  | addOrUpdate now fresh i st pos bat sig =>
      exact InvP_add_or_update now fresh i st pos bat sig hinv
  | setSelfStatus now st => exact InvP_set_self_status now st hinv
  | removeDrone i => exact InvP_remove_drone i hinv
  | cleanupOffline now timeout => exact InvP_cleanup now timeout hinv
  | resolveConflict draws ts => exact InvP_resolve draws ts hinv
  | electMaster now => exact InvP_elect_master now hinv
  | updateNetworkStatus now => exact InvP_update_network_status now hinv
  | recvPacket now rnd draws ts es p =>
      apply InvP_handle_received_packet now rnd draws ts (es.toController n) p hinv
      intro hICR o nw ho hnw
      simp only [opOkb, hICR, beq_self_eq_true, if_true, ho, hnw] at hok
      rw [Bool.or_eq_true] at hok
      rcases hok with h1 | h1
      · refine Or.inl ?_
        show nw ≠ n.get_self_id
        simpa using h1
      · exact Or.inr (beq_iff_eq.mp h1)

/-- Witness for C7: the amended theorem applied at the concrete view
`exNet` and a concrete qualifying operation. -/
theorem C7_self_invariant_witness :
    invb (applyOp (NetOp.setSelfStatus 101 DroneStatus.seeking) exNet) = true :=
  C7_self_invariant_amended exNet (NetOp.setSelfStatus 101 DroneStatus.seeking)
    (by decide) (by decide)

end DDN
